import Mathlib

/-!
# Verification of the EcommerceApi order/payment workflow

Shallow embedding of the cart → order → payment core of the repository:

* `shared/schema.ts` — entity record types and status enums;
* `server/storage.ts` (`MemStorage`) — in-memory keyed stores and their CRUD
  primitives, modelled as insertion-ordered lists with JS `Map.set`/`delete`
  semantics;
* `server/services/gateway.ts` — `getCartWithItems` (cart join + subtotal);
* `server/services/order-service.ts` — `createOrderFromCart`,
  `getOrderWithItems`, `updateOrderStatus`;
* `server/services/payment-service.ts` — `processPayment`;
* the alternate payment service (`processRefund`) and
  `server/services/notification-service.ts` — `sendNotification`.

Numbers (`doublePrecision` prices, amounts) are modelled as rationals;
quantities and inventory as integers (TS `number` fields holding integers).
`Date` timestamps are modelled by an abstract tick stored in the state.
The JS `Math.random()` transaction id is passed in as an explicit argument.
All operations are pure state transformers; fallible operations return
`Except String` carrying the thrown `Error` message (a throw in the source
happens before any mutation on these paths, so an error carries no state).
-/

namespace ECommerceApi

deriving instance DecidableEq for Except

/-- `OrderStatus` enum from `shared/schema.ts`. -/
inductive OrderStatus where
  | pending | processing | shipped | delivered | cancelled | completed
deriving DecidableEq, Repr

/-- The string value of an `OrderStatus` (TS string enum). -/
def OrderStatus.str : OrderStatus → String
  | .pending    => "pending"
  | .processing => "processing"
  | .shipped    => "shipped"
  | .delivered  => "delivered"
  | .cancelled  => "cancelled"
  | .completed  => "completed"

/-- `PaymentStatus` enum from `shared/schema.ts`. -/
inductive PaymentStatus where
  | pending | completed | failed | refunded
deriving DecidableEq, Repr

/-- The string value of a `PaymentStatus` (TS string enum). -/
def PaymentStatus.str : PaymentStatus → String
  | .pending   => "pending"
  | .completed => "completed"
  | .failed    => "failed"
  | .refunded  => "refunded"

/-- `User` row (`users` table, fields the workflow reads). -/
structure User where
  id : Nat
  username : String
  email : String
  isAdmin : Bool
deriving DecidableEq, Repr

/-- `Product` row (`products` table). `inventory` is nullable in the schema. -/
structure Product where
  id : Nat
  name : String
  price : Rat
  sku : String
  inventory : Option Int
  category : Option String
deriving DecidableEq, Repr

/-- `Cart` row (`carts` table). -/
structure Cart where
  id : Nat
  userId : Nat
  createdAt : Nat
deriving DecidableEq, Repr

/-- `CartItem` row (`cart_items` table). -/
structure CartItem where
  id : Nat
  cartId : Nat
  productId : Nat
  quantity : Int
deriving DecidableEq, Repr

/-- `Order` row (`orders` table); `orderId` is the human-readable string id
added by `MemStorage.createOrder`. -/
structure Order where
  id : Nat
  userId : Nat
  status : OrderStatus
  total : Rat
  shippingAddress : String
  orderId : String
  createdAt : Nat
deriving DecidableEq, Repr

/-- `OrderItem` row (`order_items` table). -/
structure OrderItem where
  id : Nat
  orderId : Nat
  productId : Nat
  quantity : Int
  price : Rat
deriving DecidableEq, Repr

/-- `Payment` row (`payments` table). -/
structure Payment where
  id : Nat
  orderId : Nat
  amount : Rat
  status : PaymentStatus
  paymentMethod : String
  transactionId : Option String
  createdAt : Nat
deriving DecidableEq, Repr

/-- A notification record as produced by `notification-service.ts`
`addNotification` (the fields the workflow writes). -/
structure NotificationMsg where
  recipientId : Nat
  ntype : String
  subject : String
  message : String
  status : String
deriving DecidableEq, Repr

/-- `ServiceStatus` row (`service_statuses` table). -/
structure ServiceStatusRec where
  id : Nat
  name : String
  status : String
  details : String
  lastUpdated : Nat
deriving DecidableEq, Repr

/-- Insert shape for `cart_items` (`InsertCartItem`). -/
structure InsertCartItem where
  cartId : Nat
  productId : Nat
  quantity : Int
deriving DecidableEq, Repr

/-- Insert shape for `orders` (`InsertOrder`). -/
structure InsertOrder where
  userId : Nat
  status : OrderStatus
  total : Rat
  shippingAddress : String
deriving DecidableEq, Repr

/-- Insert shape for `order_items` (`InsertOrderItem`). -/
structure InsertOrderItem where
  orderId : Nat
  productId : Nat
  quantity : Int
  price : Rat
deriving DecidableEq, Repr

/-- Insert shape for `payments` (`InsertPayment`). -/
structure InsertPayment where
  orderId : Nat
  amount : Rat
  status : PaymentStatus
  paymentMethod : String
  transactionId : Option String
deriving DecidableEq, Repr

/-! ## JS `Map` primitives

`MemStorage` keeps each table in a `Map<number, Row>`; iteration
(`Array.from(map.values())`) is in insertion order.  We model each table as
the insertion-ordered list of its rows.  `Map.set` replaces the value at an
existing key in place, otherwise appends; `Map.delete` removes the entry and
reports whether it was present. -/

/-- JS `Map.set` on a list keyed by `key`. -/
def mapSet (key : α → Nat) (l : List α) (k : Nat) (v : α) : List α :=
  if l.any (fun x => key x == k) then
    l.map (fun x => if key x == k then v else x)
  else
    l ++ [v]

/-- JS `Map.delete` on a list keyed by `key`; returns the new list and
whether the key was present. -/
def mapDelete (key : α → Nat) (l : List α) (k : Nat) : List α × Bool :=
  (l.filter (fun x => !(key x == k)), l.any (fun x => key x == k))

/-- JS `Map.get` on a list keyed by `key`. -/
def mapGet (key : α → Nat) (l : List α) (k : Nat) : Option α :=
  l.find? (fun x => key x == k)

/-- The `MemStorage` state (`server/storage.ts`): one insertion-ordered list
per `Map`, the per-table id counters, the notification log kept by
`notification-service.ts`, and an abstract clock standing for `new Date()`. -/
structure Storage where
  users : List User := []
  products : List Product := []
  carts : List Cart := []
  cartItems : List CartItem := []
  orders : List Order := []
  orderItems : List OrderItem := []
  payments : List Payment := []
  serviceStatuses : List ServiceStatusRec := []
  notifications : List NotificationMsg := []
  userId : Nat := 1
  productId : Nat := 1
  cartId : Nat := 1
  cartItemId : Nat := 1
  orderId : Nat := 1
  orderItemId : Nat := 1
  paymentId : Nat := 1
  serviceStatusId : Nat := 1
  now : Nat := 0
deriving DecidableEq, Repr

/-! ## `MemStorage` CRUD primitives (`server/storage.ts`) -/

/-- `MemStorage.getUser`. -/
def getUser (s : Storage) (id : Nat) : Option User :=
  mapGet User.id s.users id

/-- `MemStorage.getProduct`. -/
def getProduct (s : Storage) (id : Nat) : Option Product :=
  mapGet Product.id s.products id

/-- `MemStorage.updateProduct`, at the one partial shape the order workflow
uses (`{ inventory }`): merge the new inventory into the stored product;
return the sentinel and leave the store untouched when the id is absent. -/
def updateProductInventory (s : Storage) (id : Nat) (inventory : Option Int) :
    Storage × Option Product :=
  match mapGet Product.id s.products id with
  | none => (s, none)
  | some product =>
    let updated := { product with inventory := inventory }
    ({ s with products := mapSet Product.id s.products id updated }, some updated)

/-- `MemStorage.getCart`. -/
def getCart (s : Storage) (id : Nat) : Option Cart :=
  mapGet Cart.id s.carts id

/-- `MemStorage.getCartByUserId`: first cart (in insertion order) owned by
the user. -/
def getCartByUserId (s : Storage) (userId : Nat) : Option Cart :=
  s.carts.find? (fun c => c.userId == userId)

/-- `MemStorage.getCartItems`: all items of one cart, in insertion order. -/
def getCartItems (s : Storage) (cartId : Nat) : List CartItem :=
  s.cartItems.filter (fun i => i.cartId == cartId)

/-- `MemStorage.updateCartItem`: delete the row when the new quantity is
`≤ 0`, otherwise store the new quantity. -/
def updateCartItem (s : Storage) (id : Nat) (quantity : Int) :
    Storage × Option CartItem :=
  match mapGet CartItem.id s.cartItems id with
  | none => (s, none)
  | some cartItem =>
    if quantity ≤ 0 then
      ({ s with cartItems := (mapDelete CartItem.id s.cartItems id).1 },
       some { cartItem with quantity := 0 })
    else
      let updated := { cartItem with quantity := quantity }
      ({ s with cartItems := mapSet CartItem.id s.cartItems id updated },
       some updated)

/-- `MemStorage.addCartItem`: increment the quantity of an existing
`(cartId, productId)` row via `updateCartItem`, else insert a fresh row. -/
def addCartItem (s : Storage) (ins : InsertCartItem) : Storage × Option CartItem :=
  match s.cartItems.find?
      (fun i => i.cartId == ins.cartId && i.productId == ins.productId) with
  | some existingItem =>
    updateCartItem s existingItem.id (existingItem.quantity + ins.quantity)
  | none =>
    let id := s.cartItemId
    let cartItem : CartItem :=
      { id := id, cartId := ins.cartId, productId := ins.productId,
        quantity := ins.quantity }
    ({ s with cartItems := mapSet CartItem.id s.cartItems id cartItem,
              cartItemId := id + 1 },
     some cartItem)

/-- `MemStorage.removeCartItem`. -/
def removeCartItem (s : Storage) (id : Nat) : Storage × Bool :=
  let (items, present) := mapDelete CartItem.id s.cartItems id
  ({ s with cartItems := items }, present)

/-- `MemStorage.getOrder`. -/
def getOrder (s : Storage) (id : Nat) : Option Order :=
  mapGet Order.id s.orders id

/-- Decimal digit characters of `n`, most significant first: the JS
`String(id)` rendering.  The first argument is recursion fuel;
`natToChars` supplies enough. -/
def decimalChars : Nat → Nat → List Char
  | 0, _ => []
  | fuel + 1, n =>
    if n < 10 then [Nat.digitChar n]
    else decimalChars fuel (n / 10) ++ [Nat.digitChar (n % 10)]

/-- JS `String(n)` for a natural number. -/
def natToChars (n : Nat) : List Char :=
  decimalChars (n + 1) n

/-- JS `String.prototype.padStart(4, '0')` on a character list. -/
def padStart4 (l : List Char) : List Char :=
  List.replicate (4 - l.length) '0' ++ l

/-- The human-readable order id written by `MemStorage.createOrder`:
`` `ORD-${String(id).padStart(4, '0')}` ``. -/
def renderOrderId (id : Nat) : String :=
  "ORD-" ++ String.mk (padStart4 (natToChars id))

/-- `MemStorage.createOrder`: fresh numeric id, `createdAt` stamp and the
`ORD-%04d` human-readable id. -/
def createOrder (s : Storage) (ins : InsertOrder) : Storage × Order :=
  let id := s.orderId
  let order : Order :=
    { id := id, userId := ins.userId, status := ins.status, total := ins.total,
      shippingAddress := ins.shippingAddress, orderId := renderOrderId id,
      createdAt := s.now }
  ({ s with orders := mapSet Order.id s.orders id order, orderId := id + 1 },
   order)

/-- `MemStorage.updateOrderStatus`: replace the status of the stored order;
sentinel and no mutation when the id is absent. -/
def updateOrderStatus (s : Storage) (id : Nat) (status : OrderStatus) :
    Storage × Option Order :=
  match mapGet Order.id s.orders id with
  | none => (s, none)
  | some order =>
    let updated := { order with status := status }
    ({ s with orders := mapSet Order.id s.orders id updated }, some updated)

/-- `MemStorage.getOrderItems`. -/
def getOrderItems (s : Storage) (orderId : Nat) : List OrderItem :=
  s.orderItems.filter (fun i => i.orderId == orderId)

/-- `MemStorage.addOrderItem`. -/
def addOrderItem (s : Storage) (ins : InsertOrderItem) : Storage × OrderItem :=
  let id := s.orderItemId
  let orderItem : OrderItem :=
    { id := id, orderId := ins.orderId, productId := ins.productId,
      quantity := ins.quantity, price := ins.price }
  ({ s with orderItems := mapSet OrderItem.id s.orderItems id orderItem,
            orderItemId := id + 1 },
   orderItem)

/-- `MemStorage.getPayment`. -/
def getPayment (s : Storage) (id : Nat) : Option Payment :=
  mapGet Payment.id s.payments id

/-- `MemStorage.getPaymentByOrderId`: first payment (in insertion order)
for the order. -/
def getPaymentByOrderId (s : Storage) (orderId : Nat) : Option Payment :=
  s.payments.find? (fun p => p.orderId == orderId)

/-- `MemStorage.createPayment`. -/
def createPayment (s : Storage) (ins : InsertPayment) : Storage × Payment :=
  let id := s.paymentId
  let payment : Payment :=
    { id := id, orderId := ins.orderId, amount := ins.amount,
      status := ins.status, paymentMethod := ins.paymentMethod,
      transactionId := ins.transactionId, createdAt := s.now }
  ({ s with payments := mapSet Payment.id s.payments id payment,
            paymentId := id + 1 },
   payment)

/-- `MemStorage.updatePaymentStatus`. -/
def updatePaymentStatus (s : Storage) (id : Nat) (status : PaymentStatus) :
    Storage × Option Payment :=
  match mapGet Payment.id s.payments id with
  | none => (s, none)
  | some payment =>
    let updated := { payment with status := status }
    ({ s with payments := mapSet Payment.id s.payments id updated },
     some updated)

/-- `MemStorage.updateServiceStatus`: update in place or create a fresh
status row (keyed by name). -/
def updateServiceStatus (s : Storage) (name status details : String) : Storage :=
  match s.serviceStatuses.find? (fun r => r.name == name) with
  | some existing =>
    let updated :=
      { existing with status := status,
                      details := if details = "" then existing.details else details,
                      lastUpdated := s.now }
    { s with serviceStatuses :=
        s.serviceStatuses.map (fun r => if r.name == name then updated else r) }
  | none =>
    let id := s.serviceStatusId
    { s with
        serviceStatuses := s.serviceStatuses ++
          [{ id := id, name := name, status := status, details := details,
             lastUpdated := s.now }],
        serviceStatusId := id + 1 }

/-! ## Notification service (`server/services/notification-service.ts`)

`sendNotification` logs, marks the notification service healthy, and appends
a notification record; `sendEmail` catches every error, so `sendNotification`
never throws.  The default email configuration has the channel enabled, so
email notifications are recorded with status `sent`. -/

/-- `sendNotification`: update the service status row and append the
notification (status `sent` under the default configuration). -/
def sendNotification (s : Storage) (recipientId : Nat)
    (ntype subject message : String) : Storage :=
  let s1 := updateServiceStatus s "notification-service" "healthy"
      "Service is operating normally"
  { s1 with notifications := s1.notifications ++
      [{ recipientId := recipientId, ntype := ntype, subject := subject,
         message := message, status := "sent" }] }

/-- `sendOrderConfirmation`: look the user up (throwing when absent) and send
the canned order-confirmation email.  Note: nothing in
`createOrderFromCart` calls this function. -/
def sendOrderConfirmation (s : Storage) (userId orderId : Nat) :
    Except String Storage :=
  match getUser s userId with
  | none => .error "User not found"
  | some _ =>
    .ok (sendNotification s userId "email"
      ("Order #" ++ toString orderId ++ " Confirmation")
      ("Your order #" ++ toString orderId ++
        " has been received and is being processed. Thank you for your purchase!"))

/-! ## Cart join (`server/services/gateway.ts`, `getCartWithItems`) -/

/-- A cart line joined with its product (`CartItem & { product: Product }`). -/
structure JoinedCartItem where
  item : CartItem
  product : Product
deriving DecidableEq, Repr

/-- `CartWithItems`: the cart, its joined lines, and the derived totals. -/
structure CartWithItems where
  cart : Cart
  items : List JoinedCartItem
  subtotal : Rat
  totalItems : Int
deriving DecidableEq, Repr

/-- The joined lines of a cart: each cart item paired with its product,
skipping items whose product no longer exists (the `if (product)` guard). -/
def joinedCartItems (s : Storage) (cartId : Nat) : List JoinedCartItem :=
  (getCartItems s cartId).filterMap
    (fun i => (getProduct s i.productId).map (fun p => ⟨i, p⟩))

/-- `getCartWithItems`: join the cart's items with their products and
accumulate `subtotal = Σ price·quantity` and `totalItems = Σ quantity`
over the joined lines. -/
def getCartWithItems (s : Storage) (cartId : Nat) : Option CartWithItems :=
  match getCart s cartId with
  | none => none
  | some cart =>
    let joined := joinedCartItems s cartId
    some { cart := cart,
           items := joined,
           subtotal := (joined.map
             (fun j => j.product.price * (j.item.quantity : Rat))).sum,
           totalItems := (joined.map (fun j => j.item.quantity)).sum }

/-! ## Order workflow (`server/services/order-service.ts`) -/

/-- An order joined with its items (each with its product) and its user
(`OrderWithItems`). -/
structure OrderWithItems where
  order : Order
  items : List (OrderItem × Product)
  user : User
deriving DecidableEq, Repr

/-- `getOrderWithItems`: join the order with its items' products and the
owning user; the sentinel when order or user is absent. -/
def getOrderWithItems (s : Storage) (orderId : Nat) : Option OrderWithItems :=
  match getOrder s orderId with
  | none => none
  | some order =>
    match getUser s order.userId with
    | none => none
    | some user =>
      some { order := order,
             items := (getOrderItems s orderId).filterMap
               (fun i => (getProduct s i.productId).map (fun p => (i, p))),
             user := user }

/-- One iteration of the order-item loop in `createOrderFromCart`: add the
`OrderItem` snapshot for one cart line, then decrement the product's
inventory, clamped at zero, when the snapshot inventory is truthy
(non-null, non-zero). -/
def orderLineStep (orderId : Nat) (st : Storage) (j : JoinedCartItem) : Storage :=
  let st1 := (addOrderItem st
    { orderId := orderId, productId := j.item.productId,
      quantity := j.item.quantity, price := j.product.price }).1
  match j.product.inventory with
  | none => st1
  | some inv =>
    if inv = 0 then st1
    else (updateProductInventory st1 j.product.id
      (some (max 0 (inv - j.item.quantity)))).1

/-- One iteration of the cart-clearing loop in `createOrderFromCart`: delete
one joined cart line. -/
def clearCartStep (st : Storage) (j : JoinedCartItem) : Storage :=
  (removeCartItem st j.item.id).1

/-- `createOrderFromCart`: load the user's cart and its joined items, reject
a missing cart (`"Cart not found"`) or an empty join (`"Cart is empty"`);
otherwise create a `PENDING` order totalling the cart subtotal, snapshot one
`OrderItem` per joined line and decrement inventories, then delete each
joined cart line, and return the joined order. -/
def createOrderFromCart (s : Storage) (userId : Nat) (shippingAddress : String) :
    Except String (Storage × Option OrderWithItems) :=
  match getCartByUserId s userId with
  | none => .error "Cart not found"
  | some cart =>
    match getCartWithItems s cart.id with
    | none => .error "Cart is empty"
    | some cartWithItems =>
      if cartWithItems.items.isEmpty then .error "Cart is empty"
      else
        let (s1, order) := createOrder s
          { userId := userId, status := .pending,
            total := cartWithItems.subtotal,
            shippingAddress := shippingAddress }
        let s2 := cartWithItems.items.foldl (orderLineStep order.id) s1
        let s3 := cartWithItems.items.foldl clearCartStep s2
        .ok (s3, getOrderWithItems s3 order.id)

/-! ## Payment workflow (`server/services/payment-service.ts`) -/

/-- `processPayment`: reject an order that already has a payment, else
create a `PENDING` payment with the generated transaction id, then mark it
`COMPLETED` and advance the order to `PROCESSING` on mock success, or mark
it `FAILED` and leave the order untouched.  `txnId` stands for the
`Math.random()`-generated mock transaction id. -/
def processPayment (s : Storage) (orderId : Nat) (amount : Rat)
    (paymentMethod : String) (mockSuccess : Bool) (txnId : String) :
    Except String (Storage × Payment) :=
  match getPaymentByOrderId s orderId with
  | some _ => .error ("Payment already exists for order " ++ toString orderId)
  | none =>
    let (s1, payment) := createPayment s
      { orderId := orderId, amount := amount, status := .pending,
        paymentMethod := paymentMethod, transactionId := some txnId }
    if mockSuccess then
      let (s2, updated) := updatePaymentStatus s1 payment.id .completed
      let (s3, _) := updateOrderStatus s2 orderId .processing
      -- the `as Payment` cast: the freshly created payment is present
      .ok (s3, updated.getD payment)
    else
      let (s2, updated) := updatePaymentStatus s1 payment.id .failed
      .ok (s2, updated.getD payment)

/-! ## Refund workflow (alternate payment service, `processRefund`) -/

/-- `processRefund`: only a `COMPLETED` payment can be refunded; the refund
marks the payment `REFUNDED`, cancels the associated order and sends a
refund notification.  `stripeConfigured`/`stripeRefundFails` model the
external-gateway configuration and outcome (`stripeService.isStripeConfigured`
and `createRefund`); with no gateway configured the branch is dead. -/
def processRefund (stripeConfigured stripeRefundFails : Bool)
    (s : Storage) (paymentId : Nat) (amount : Option Rat) :
    Except String (Storage × Payment) :=
  match getPayment s paymentId with
  | none => .error ("Payment " ++ toString paymentId ++ " not found")
  | some payment =>
    if payment.status ≠ PaymentStatus.completed then
      .error ("Cannot refund payment " ++ toString paymentId ++
        " with status " ++ payment.status.str)
    else
      match getOrder s payment.orderId with
      | none => .error ("Order " ++ toString payment.orderId ++ " not found")
      | some order =>
        match getUser s order.userId with
        | none => .error ("User " ++ toString order.userId ++ " not found")
        | some user =>
          if stripeConfigured && payment.paymentMethod == "stripe"
              && payment.transactionId.isSome && stripeRefundFails then
            .error "Stripe refund failed"
          else
            let (s1, _) := updatePaymentStatus s payment.id .refunded
            let (s2, _) := updateOrderStatus s1 order.id .cancelled
            -- `amount || payment.amount`: `0` and `undefined` are falsy
            let refundAmount : Rat :=
              match amount with
              | some a => if a = 0 then payment.amount else a
              | none => payment.amount
            let s3 := sendNotification s2 user.id "email"
              ("Refund Processed for Order #" ++ toString order.id)
              ("Your refund of $" ++ toString refundAmount ++ " for Order #" ++
                toString order.id ++ " has been processed.")
            .ok (s3, (getPayment s3 payment.id).getD payment)

/-! ## Lemmas about the JS `Map` primitives -/

theorem mapGet_eq_none {key : α → Nat} {l : List α} {k : Nat}
    (h : ∀ x ∈ l, key x ≠ k) : mapGet key l k = none := by
  simp only [mapGet, List.find?_eq_none, beq_iff_eq]
  exact h

theorem any_eq_false_of_keys_ne {key : α → Nat} {l : List α} {k : Nat}
    (h : ∀ x ∈ l, key x ≠ k) : l.any (fun x => key x == k) = false := by
  simp only [List.any_eq_false, beq_iff_eq]
  exact h

/-- Inserting at a key absent from the list appends. -/
theorem mapSet_of_fresh {key : α → Nat} {l : List α} {k : Nat} (v : α)
    (h : ∀ x ∈ l, key x ≠ k) : mapSet key l k v = l ++ [v] := by
  simp [mapSet, any_eq_false_of_keys_ne h]

theorem find?_mapReplace_same {key : α → Nat} {k : Nat} {v : α} (hv : key v = k) :
    ∀ l : List α, l.any (fun x => key x == k) = true →
      (l.map (fun x => if key x == k then v else x)).find?
        (fun x => key x == k) = some v := by
  intro l
  induction l with
  | nil => intro h; simp at h
  | cons x xs ih =>
    intro hany
    by_cases hx : key x = k
    · have hxb : (key x == k) = true := by simpa using hx
      have hvb : (key v == k) = true := by simpa using hv
      rw [List.map_cons, if_pos hxb,
        List.find?_cons_of_pos (p := fun x => key x == k) _ hvb]
    · have hxb : (key x == k) = false := by simpa using hx
      rw [List.any_cons, hxb, Bool.false_or] at hany
      rw [List.map_cons, if_neg (by simp [hxb]),
        List.find?_cons_of_neg (p := fun x => key x == k) _ (by simp [hxb])]
      exact ih hany

theorem find?_mapReplace_ne {key : α → Nat} {k k' : Nat} {v : α}
    (hv : key v = k) (hne : k' ≠ k) :
    ∀ l : List α,
      (l.map (fun x => if key x == k then v else x)).find?
        (fun x => key x == k') = l.find? (fun x => key x == k') := by
  intro l
  induction l with
  | nil => rfl
  | cons x xs ih =>
    by_cases hx : key x = k
    · have hxb : (key x == k) = true := by simpa using hx
      have hx' : (key x == k') = false := by
        simp only [beq_eq_false_iff_ne]; rw [hx]; exact fun h => hne h.symm
      have hv' : (key v == k') = false := by
        simp only [beq_eq_false_iff_ne]; rw [hv]; exact fun h => hne h.symm
      rw [List.map_cons, if_pos hxb,
        List.find?_cons_of_neg (p := fun x => key x == k') _ (by simp [hv']),
        List.find?_cons_of_neg (p := fun x => key x == k') _ (by simp [hx'])]
      exact ih
    · have hxb : (key x == k) = false := by simpa using hx
      by_cases hk' : key x = k'
      · have hk'b : (key x == k') = true := by simpa using hk'
        rw [List.map_cons, if_neg (by simp [hxb]),
          List.find?_cons_of_pos (p := fun x => key x == k') _ hk'b,
          List.find?_cons_of_pos (p := fun x => key x == k') _ hk'b]
      · have hk'b : (key x == k') = false := by simpa using hk'
        rw [List.map_cons, if_neg (by simp [hxb]),
          List.find?_cons_of_neg (p := fun x => key x == k') _ (by simp [hk'b]),
          List.find?_cons_of_neg (p := fun x => key x == k') _ (by simp [hk'b])]
        exact ih

/-- Looking up the key just written returns the written value. -/
theorem mapGet_mapSet_same {key : α → Nat} {l : List α} {k : Nat} {v : α}
    (hv : key v = k) : mapGet key (mapSet key l k v) k = some v := by
  unfold mapSet
  by_cases hany : l.any (fun x => key x == k)
  · rw [if_pos hany]
    exact find?_mapReplace_same hv l hany
  · rw [if_neg hany]
    simp only [Bool.not_eq_true, List.any_eq_false, beq_iff_eq] at hany
    have hvb : (key v == k) = true := by simpa using hv
    unfold mapGet
    rw [List.find?_append, List.find?_eq_none.mpr (by simpa using hany),
      Option.none_or, List.find?_cons_of_pos (p := fun x => key x == k) _ hvb]

/-- Writing one key leaves every other key's lookup unchanged. -/
theorem mapGet_mapSet_ne {key : α → Nat} {l : List α} {k k' : Nat} {v : α}
    (hv : key v = k) (hne : k' ≠ k) :
    mapGet key (mapSet key l k v) k' = mapGet key l k' := by
  unfold mapSet
  by_cases hany : l.any (fun x => key x == k)
  · rw [if_pos hany]
    exact find?_mapReplace_ne hv hne l
  · rw [if_neg hany]
    have hv' : (key v == k') = false := by
      simp only [beq_eq_false_iff_ne]; rw [hv]; exact fun h => hne h.symm
    unfold mapGet
    rw [List.find?_append]
    rw [show (List.find? (fun x => key x == k') [v]) = none by simp [hv'],
      Option.or_none]

/-- Rewriting a key that sits just past a prefix of other keys. -/
theorem mapSet_append_singleton {key : α → Nat} {l : List α} {k : Nat} {v v' : α}
    (hl : ∀ x ∈ l, key x ≠ k) (hv : key v = k) :
    mapSet key (l ++ [v]) k v' = l ++ [v'] := by
  have hvb : (key v == k) = true := by simpa using hv
  have hany : (l ++ [v]).any (fun x => key x == k) = true := by
    simp [List.any_append, hvb]
  rw [mapSet, if_pos hany, List.map_append]
  have h1 : l.map (fun x => if key x == k then v' else x) = l :=
    (List.map_congr_left (fun x hxm => if_neg (by simp [hl x hxm]))).trans
      (List.map_id l)
  rw [h1, List.map_singleton, if_pos hvb]

/-- With pairwise-distinct keys, the member found by key is the member. -/
theorem mapGet_of_mem_of_nodup {key : α → Nat} {l : List α} {x : α}
    (hnd : (l.map key).Nodup) (hmem : x ∈ l) : mapGet key l (key x) = some x := by
  induction l with
  | nil => simp at hmem
  | cons y ys ih =>
    simp only [List.map_cons, List.nodup_cons, List.mem_map] at hnd
    rcases List.mem_cons.mp hmem with rfl | hmem'
    · simp [mapGet]
    · have hne : key y ≠ key x := fun h =>
        hnd.1 ⟨x, hmem', h.symm⟩
      simpa [mapGet, hne] using ih hnd.2 hmem'

/-- With pairwise-distinct keys, two members sharing a key are equal. -/
theorem eq_of_key_eq_of_nodup {key : α → Nat} {l : List α} {x y : α}
    (hnd : (l.map key).Nodup) (hx : x ∈ l) (hy : y ∈ l)
    (hk : key x = key y) : x = y := by
  exact List.inj_on_of_nodup_map hnd hx hy hk

/-! ## The `ORD-%04d` rendering and its round-trip

The repository renders the human-readable order id
(`` `ORD-${String(id).padStart(4, '0')}` `` in `MemStorage.createOrder`) but
contains no parser for it, so the parsing direction of the round-trip
property is modelled from the spec. -/

/-- Modelled from the spec: parse a non-empty all-digit string as a decimal
number (leading zeros allowed). -/
def parseDecimalChars (l : List Char) : Option Nat :=
  if l ≠ [] ∧ l.all Char.isDigit then
    some (l.foldl (fun a c => a * 10 + (c.toNat - '0'.toNat)) 0)
  else none

/-- Modelled from the spec: parsing must recover the numeric id from the
rendered `ORD-%04d` string — strip the `ORD-` prefix and read the digits. -/
def parseOrderId (s : String) : Option Nat :=
  if s.data.take 4 = ['O', 'R', 'D', '-'] then parseDecimalChars (s.data.drop 4)
  else none

theorem digitChar_toNat_sub {n : Nat} (h : n < 10) :
    (Nat.digitChar n).toNat - '0'.toNat = n := by
  interval_cases n <;> rfl

theorem digitChar_isDigit {n : Nat} (h : n < 10) :
    (Nat.digitChar n).isDigit = true := by
  interval_cases n <;> rfl

theorem decimalChars_ne_nil {f n : Nat} (hf : 1 ≤ f) (hn : n < 10 ^ f) :
    decimalChars f n ≠ [] := by
  induction f generalizing n with
  | zero => omega
  | succ f ih =>
    rw [decimalChars]
    by_cases h10 : n < 10
    · simp [h10]
    · simp only [h10, if_false]
      intro hcontra
      rcases List.append_eq_nil.mp hcontra with ⟨-, h2⟩
      exact List.cons_ne_nil _ _ h2

theorem decimalChars_all_digits {f n : Nat} (hf : 1 ≤ f) (hn : n < 10 ^ f) :
    ∀ c ∈ decimalChars f n, c.isDigit = true := by
  induction f generalizing n with
  | zero => omega
  | succ f ih =>
    rw [decimalChars]
    by_cases h10 : n < 10
    · simp only [h10, if_true, List.mem_singleton]
      rintro c rfl
      exact digitChar_isDigit h10
    · simp only [h10, if_false]
      intro c hc
      rcases List.mem_append.mp hc with hc1 | hc2
      · have hf' : 1 ≤ f := by
          rcases Nat.eq_zero_or_pos f with rfl | h
          · simp at hn; omega
          · exact h
        have hdiv : n / 10 < 10 ^ f := by
          rw [Nat.div_lt_iff_lt_mul (by norm_num)]
          calc n < 10 ^ (f + 1) := hn
          _ = 10 ^ f * 10 := by ring
        exact ih hf' hdiv c hc1
      · rw [List.mem_singleton.mp hc2]
        exact digitChar_isDigit (Nat.mod_lt n (by norm_num))

theorem decimalChars_foldl {f n : Nat} (hf : 1 ≤ f) (hn : n < 10 ^ f) :
    ∀ a : Nat, (decimalChars f n).foldl
        (fun a c => a * 10 + (c.toNat - '0'.toNat)) a
      = a * 10 ^ (decimalChars f n).length + n := by
  induction f generalizing n with
  | zero => omega
  | succ f ih =>
    intro a
    rw [decimalChars]
    by_cases h10 : n < 10
    · rw [if_pos h10]
      simp only [List.foldl_cons, List.foldl_nil, List.length_singleton, pow_one]
      rw [digitChar_toNat_sub h10]
    · simp only [h10, if_false]
      have hf' : 1 ≤ f := by
        rcases Nat.eq_zero_or_pos f with rfl | h
        · simp at hn; omega
        · exact h
      have hdiv : n / 10 < 10 ^ f := by
        rw [Nat.div_lt_iff_lt_mul (by norm_num)]
        calc n < 10 ^ (f + 1) := hn
        _ = 10 ^ f * 10 := by ring
      rw [List.foldl_append, ih hf' hdiv a, List.length_append,
        List.length_singleton, List.foldl_cons, List.foldl_nil,
        digitChar_toNat_sub (Nat.mod_lt n (by norm_num))]
      have : (a * 10 ^ (decimalChars f (n / 10)).length + n / 10) * 10 + n % 10
          = a * (10 ^ (decimalChars f (n / 10)).length * 10)
            + (n / 10 * 10 + n % 10) := by ring
      have h2 : n / 10 * 10 + n % 10 = n := Nat.div_add_mod' n 10
      rw [this, h2, pow_succ]

theorem lt_ten_pow_succ (n : Nat) : n < 10 ^ (n + 1) :=
  calc n < 2 ^ n := Nat.lt_two_pow n
  _ ≤ 10 ^ n := Nat.pow_le_pow_left (by norm_num) n
  _ ≤ 10 ^ (n + 1) := Nat.pow_le_pow_right (by norm_num) (Nat.le_succ n)

theorem foldl_replicate_zeros (k : Nat) :
    (List.replicate k '0').foldl (fun a c => a * 10 + (c.toNat - '0'.toNat)) 0
      = 0 := by
  induction k with
  | zero => rfl
  | succ k ih => rw [List.replicate_succ, List.foldl_cons]; simpa using ih

/-- Parsing the padded decimal rendering recovers the number. -/
theorem parseDecimalChars_padStart4_natToChars (n : Nat) :
    parseDecimalChars (padStart4 (natToChars n)) = some n := by
  have hf : 1 ≤ n + 1 := Nat.le_add_left 1 n
  have hn : n < 10 ^ (n + 1) := lt_ten_pow_succ n
  have hne : natToChars n ≠ [] := decimalChars_ne_nil hf hn
  have hdig : ∀ c ∈ natToChars n, c.isDigit = true := decimalChars_all_digits hf hn
  rw [parseDecimalChars, padStart4, if_pos]
  · rw [List.foldl_append, foldl_replicate_zeros]
    have := decimalChars_foldl hf hn 0
    rw [natToChars, this, Nat.zero_mul, Nat.zero_add]
  · constructor
    · intro hcontra
      rcases List.append_eq_nil.mp hcontra with ⟨-, h2⟩
      exact hne h2
    · rw [List.all_append, Bool.and_eq_true]
      constructor
      · rw [List.all_eq_true]
        intro c hc
        rw [List.eq_of_mem_replicate hc]; rfl
      · rw [List.all_eq_true]; exact fun c hc => hdig c hc

/-! ## Frame lemmas: fields each storage operation leaves unchanged -/

@[simp] theorem updateProductInventory_users (s : Storage) (id : Nat) (inv : Option Int) :
    (updateProductInventory s id inv).1.users = s.users := by
  unfold updateProductInventory; (try split) <;> (try split) <;> rfl

@[simp] theorem updateProductInventory_carts (s : Storage) (id : Nat) (inv : Option Int) :
    (updateProductInventory s id inv).1.carts = s.carts := by
  unfold updateProductInventory; (try split) <;> (try split) <;> rfl

@[simp] theorem updateProductInventory_cartItems (s : Storage) (id : Nat) (inv : Option Int) :
    (updateProductInventory s id inv).1.cartItems = s.cartItems := by
  unfold updateProductInventory; (try split) <;> (try split) <;> rfl

@[simp] theorem updateProductInventory_orders (s : Storage) (id : Nat) (inv : Option Int) :
    (updateProductInventory s id inv).1.orders = s.orders := by
  unfold updateProductInventory; (try split) <;> (try split) <;> rfl

@[simp] theorem updateProductInventory_orderItems (s : Storage) (id : Nat) (inv : Option Int) :
    (updateProductInventory s id inv).1.orderItems = s.orderItems := by
  unfold updateProductInventory; (try split) <;> (try split) <;> rfl

@[simp] theorem updateProductInventory_payments (s : Storage) (id : Nat) (inv : Option Int) :
    (updateProductInventory s id inv).1.payments = s.payments := by
  unfold updateProductInventory; (try split) <;> (try split) <;> rfl

@[simp] theorem updateProductInventory_notifications (s : Storage) (id : Nat) (inv : Option Int) :
    (updateProductInventory s id inv).1.notifications = s.notifications := by
  unfold updateProductInventory; (try split) <;> (try split) <;> rfl

@[simp] theorem updateProductInventory_cartItemId (s : Storage) (id : Nat) (inv : Option Int) :
    (updateProductInventory s id inv).1.cartItemId = s.cartItemId := by
  unfold updateProductInventory; (try split) <;> (try split) <;> rfl

@[simp] theorem updateProductInventory_orderId (s : Storage) (id : Nat) (inv : Option Int) :
    (updateProductInventory s id inv).1.orderId = s.orderId := by
  unfold updateProductInventory; (try split) <;> (try split) <;> rfl

@[simp] theorem updateProductInventory_orderItemId (s : Storage) (id : Nat) (inv : Option Int) :
    (updateProductInventory s id inv).1.orderItemId = s.orderItemId := by
  unfold updateProductInventory; (try split) <;> (try split) <;> rfl

@[simp] theorem updateProductInventory_paymentId (s : Storage) (id : Nat) (inv : Option Int) :
    (updateProductInventory s id inv).1.paymentId = s.paymentId := by
  unfold updateProductInventory; (try split) <;> (try split) <;> rfl

@[simp] theorem updateProductInventory_now (s : Storage) (id : Nat) (inv : Option Int) :
    (updateProductInventory s id inv).1.now = s.now := by
  unfold updateProductInventory; (try split) <;> (try split) <;> rfl

@[simp] theorem updateCartItem_users (s : Storage) (id : Nat) (q : Int) :
    (updateCartItem s id q).1.users = s.users := by
  unfold updateCartItem; (try split) <;> (try split) <;> rfl

@[simp] theorem updateCartItem_products (s : Storage) (id : Nat) (q : Int) :
    (updateCartItem s id q).1.products = s.products := by
  unfold updateCartItem; (try split) <;> (try split) <;> rfl

@[simp] theorem updateCartItem_carts (s : Storage) (id : Nat) (q : Int) :
    (updateCartItem s id q).1.carts = s.carts := by
  unfold updateCartItem; (try split) <;> (try split) <;> rfl

@[simp] theorem updateCartItem_orders (s : Storage) (id : Nat) (q : Int) :
    (updateCartItem s id q).1.orders = s.orders := by
  unfold updateCartItem; (try split) <;> (try split) <;> rfl

@[simp] theorem updateCartItem_orderItems (s : Storage) (id : Nat) (q : Int) :
    (updateCartItem s id q).1.orderItems = s.orderItems := by
  unfold updateCartItem; (try split) <;> (try split) <;> rfl

@[simp] theorem updateCartItem_payments (s : Storage) (id : Nat) (q : Int) :
    (updateCartItem s id q).1.payments = s.payments := by
  unfold updateCartItem; (try split) <;> (try split) <;> rfl

@[simp] theorem updateCartItem_notifications (s : Storage) (id : Nat) (q : Int) :
    (updateCartItem s id q).1.notifications = s.notifications := by
  unfold updateCartItem; (try split) <;> (try split) <;> rfl

@[simp] theorem updateCartItem_cartItemId (s : Storage) (id : Nat) (q : Int) :
    (updateCartItem s id q).1.cartItemId = s.cartItemId := by
  unfold updateCartItem; (try split) <;> (try split) <;> rfl

@[simp] theorem updateCartItem_orderId (s : Storage) (id : Nat) (q : Int) :
    (updateCartItem s id q).1.orderId = s.orderId := by
  unfold updateCartItem; (try split) <;> (try split) <;> rfl

@[simp] theorem updateCartItem_orderItemId (s : Storage) (id : Nat) (q : Int) :
    (updateCartItem s id q).1.orderItemId = s.orderItemId := by
  unfold updateCartItem; (try split) <;> (try split) <;> rfl

@[simp] theorem updateCartItem_paymentId (s : Storage) (id : Nat) (q : Int) :
    (updateCartItem s id q).1.paymentId = s.paymentId := by
  unfold updateCartItem; (try split) <;> (try split) <;> rfl

@[simp] theorem updateCartItem_now (s : Storage) (id : Nat) (q : Int) :
    (updateCartItem s id q).1.now = s.now := by
  unfold updateCartItem; (try split) <;> (try split) <;> rfl

@[simp] theorem removeCartItem_users (s : Storage) (id : Nat) :
    (removeCartItem s id).1.users = s.users := by
  unfold removeCartItem; (try split) <;> (try split) <;> rfl

@[simp] theorem removeCartItem_products (s : Storage) (id : Nat) :
    (removeCartItem s id).1.products = s.products := by
  unfold removeCartItem; (try split) <;> (try split) <;> rfl

@[simp] theorem removeCartItem_carts (s : Storage) (id : Nat) :
    (removeCartItem s id).1.carts = s.carts := by
  unfold removeCartItem; (try split) <;> (try split) <;> rfl

@[simp] theorem removeCartItem_orders (s : Storage) (id : Nat) :
    (removeCartItem s id).1.orders = s.orders := by
  unfold removeCartItem; (try split) <;> (try split) <;> rfl

@[simp] theorem removeCartItem_orderItems (s : Storage) (id : Nat) :
    (removeCartItem s id).1.orderItems = s.orderItems := by
  unfold removeCartItem; (try split) <;> (try split) <;> rfl

@[simp] theorem removeCartItem_payments (s : Storage) (id : Nat) :
    (removeCartItem s id).1.payments = s.payments := by
  unfold removeCartItem; (try split) <;> (try split) <;> rfl

@[simp] theorem removeCartItem_notifications (s : Storage) (id : Nat) :
    (removeCartItem s id).1.notifications = s.notifications := by
  unfold removeCartItem; (try split) <;> (try split) <;> rfl

@[simp] theorem removeCartItem_cartItemId (s : Storage) (id : Nat) :
    (removeCartItem s id).1.cartItemId = s.cartItemId := by
  unfold removeCartItem; (try split) <;> (try split) <;> rfl

@[simp] theorem removeCartItem_orderId (s : Storage) (id : Nat) :
    (removeCartItem s id).1.orderId = s.orderId := by
  unfold removeCartItem; (try split) <;> (try split) <;> rfl

@[simp] theorem removeCartItem_orderItemId (s : Storage) (id : Nat) :
    (removeCartItem s id).1.orderItemId = s.orderItemId := by
  unfold removeCartItem; (try split) <;> (try split) <;> rfl

@[simp] theorem removeCartItem_paymentId (s : Storage) (id : Nat) :
    (removeCartItem s id).1.paymentId = s.paymentId := by
  unfold removeCartItem; (try split) <;> (try split) <;> rfl

@[simp] theorem removeCartItem_now (s : Storage) (id : Nat) :
    (removeCartItem s id).1.now = s.now := by
  unfold removeCartItem; (try split) <;> (try split) <;> rfl

@[simp] theorem createOrder_users (s : Storage) (ins : InsertOrder) :
    (createOrder s ins).1.users = s.users := by
  unfold createOrder; (try split) <;> (try split) <;> rfl

@[simp] theorem createOrder_products (s : Storage) (ins : InsertOrder) :
    (createOrder s ins).1.products = s.products := by
  unfold createOrder; (try split) <;> (try split) <;> rfl

@[simp] theorem createOrder_carts (s : Storage) (ins : InsertOrder) :
    (createOrder s ins).1.carts = s.carts := by
  unfold createOrder; (try split) <;> (try split) <;> rfl

@[simp] theorem createOrder_cartItems (s : Storage) (ins : InsertOrder) :
    (createOrder s ins).1.cartItems = s.cartItems := by
  unfold createOrder; (try split) <;> (try split) <;> rfl

@[simp] theorem createOrder_orderItems (s : Storage) (ins : InsertOrder) :
    (createOrder s ins).1.orderItems = s.orderItems := by
  unfold createOrder; (try split) <;> (try split) <;> rfl

@[simp] theorem createOrder_payments (s : Storage) (ins : InsertOrder) :
    (createOrder s ins).1.payments = s.payments := by
  unfold createOrder; (try split) <;> (try split) <;> rfl

@[simp] theorem createOrder_notifications (s : Storage) (ins : InsertOrder) :
    (createOrder s ins).1.notifications = s.notifications := by
  unfold createOrder; (try split) <;> (try split) <;> rfl

@[simp] theorem createOrder_cartItemId (s : Storage) (ins : InsertOrder) :
    (createOrder s ins).1.cartItemId = s.cartItemId := by
  unfold createOrder; (try split) <;> (try split) <;> rfl

@[simp] theorem createOrder_orderItemId (s : Storage) (ins : InsertOrder) :
    (createOrder s ins).1.orderItemId = s.orderItemId := by
  unfold createOrder; (try split) <;> (try split) <;> rfl

@[simp] theorem createOrder_paymentId (s : Storage) (ins : InsertOrder) :
    (createOrder s ins).1.paymentId = s.paymentId := by
  unfold createOrder; (try split) <;> (try split) <;> rfl

@[simp] theorem createOrder_now (s : Storage) (ins : InsertOrder) :
    (createOrder s ins).1.now = s.now := by
  unfold createOrder; (try split) <;> (try split) <;> rfl

@[simp] theorem updateOrderStatus_users (s : Storage) (id : Nat) (st : OrderStatus) :
    (updateOrderStatus s id st).1.users = s.users := by
  unfold updateOrderStatus; (try split) <;> (try split) <;> rfl

@[simp] theorem updateOrderStatus_products (s : Storage) (id : Nat) (st : OrderStatus) :
    (updateOrderStatus s id st).1.products = s.products := by
  unfold updateOrderStatus; (try split) <;> (try split) <;> rfl

@[simp] theorem updateOrderStatus_carts (s : Storage) (id : Nat) (st : OrderStatus) :
    (updateOrderStatus s id st).1.carts = s.carts := by
  unfold updateOrderStatus; (try split) <;> (try split) <;> rfl

@[simp] theorem updateOrderStatus_cartItems (s : Storage) (id : Nat) (st : OrderStatus) :
    (updateOrderStatus s id st).1.cartItems = s.cartItems := by
  unfold updateOrderStatus; (try split) <;> (try split) <;> rfl

@[simp] theorem updateOrderStatus_orderItems (s : Storage) (id : Nat) (st : OrderStatus) :
    (updateOrderStatus s id st).1.orderItems = s.orderItems := by
  unfold updateOrderStatus; (try split) <;> (try split) <;> rfl

@[simp] theorem updateOrderStatus_payments (s : Storage) (id : Nat) (st : OrderStatus) :
    (updateOrderStatus s id st).1.payments = s.payments := by
  unfold updateOrderStatus; (try split) <;> (try split) <;> rfl

@[simp] theorem updateOrderStatus_notifications (s : Storage) (id : Nat) (st : OrderStatus) :
    (updateOrderStatus s id st).1.notifications = s.notifications := by
  unfold updateOrderStatus; (try split) <;> (try split) <;> rfl

@[simp] theorem updateOrderStatus_cartItemId (s : Storage) (id : Nat) (st : OrderStatus) :
    (updateOrderStatus s id st).1.cartItemId = s.cartItemId := by
  unfold updateOrderStatus; (try split) <;> (try split) <;> rfl

@[simp] theorem updateOrderStatus_orderId (s : Storage) (id : Nat) (st : OrderStatus) :
    (updateOrderStatus s id st).1.orderId = s.orderId := by
  unfold updateOrderStatus; (try split) <;> (try split) <;> rfl

@[simp] theorem updateOrderStatus_orderItemId (s : Storage) (id : Nat) (st : OrderStatus) :
    (updateOrderStatus s id st).1.orderItemId = s.orderItemId := by
  unfold updateOrderStatus; (try split) <;> (try split) <;> rfl

@[simp] theorem updateOrderStatus_paymentId (s : Storage) (id : Nat) (st : OrderStatus) :
    (updateOrderStatus s id st).1.paymentId = s.paymentId := by
  unfold updateOrderStatus; (try split) <;> (try split) <;> rfl

@[simp] theorem updateOrderStatus_now (s : Storage) (id : Nat) (st : OrderStatus) :
    (updateOrderStatus s id st).1.now = s.now := by
  unfold updateOrderStatus; (try split) <;> (try split) <;> rfl

@[simp] theorem addOrderItem_users (s : Storage) (ins : InsertOrderItem) :
    (addOrderItem s ins).1.users = s.users := by
  unfold addOrderItem; (try split) <;> (try split) <;> rfl

@[simp] theorem addOrderItem_products (s : Storage) (ins : InsertOrderItem) :
    (addOrderItem s ins).1.products = s.products := by
  unfold addOrderItem; (try split) <;> (try split) <;> rfl

@[simp] theorem addOrderItem_carts (s : Storage) (ins : InsertOrderItem) :
    (addOrderItem s ins).1.carts = s.carts := by
  unfold addOrderItem; (try split) <;> (try split) <;> rfl

@[simp] theorem addOrderItem_cartItems (s : Storage) (ins : InsertOrderItem) :
    (addOrderItem s ins).1.cartItems = s.cartItems := by
  unfold addOrderItem; (try split) <;> (try split) <;> rfl

@[simp] theorem addOrderItem_orders (s : Storage) (ins : InsertOrderItem) :
    (addOrderItem s ins).1.orders = s.orders := by
  unfold addOrderItem; (try split) <;> (try split) <;> rfl

@[simp] theorem addOrderItem_payments (s : Storage) (ins : InsertOrderItem) :
    (addOrderItem s ins).1.payments = s.payments := by
  unfold addOrderItem; (try split) <;> (try split) <;> rfl

@[simp] theorem addOrderItem_notifications (s : Storage) (ins : InsertOrderItem) :
    (addOrderItem s ins).1.notifications = s.notifications := by
  unfold addOrderItem; (try split) <;> (try split) <;> rfl

@[simp] theorem addOrderItem_cartItemId (s : Storage) (ins : InsertOrderItem) :
    (addOrderItem s ins).1.cartItemId = s.cartItemId := by
  unfold addOrderItem; (try split) <;> (try split) <;> rfl

@[simp] theorem addOrderItem_orderId (s : Storage) (ins : InsertOrderItem) :
    (addOrderItem s ins).1.orderId = s.orderId := by
  unfold addOrderItem; (try split) <;> (try split) <;> rfl

@[simp] theorem addOrderItem_paymentId (s : Storage) (ins : InsertOrderItem) :
    (addOrderItem s ins).1.paymentId = s.paymentId := by
  unfold addOrderItem; (try split) <;> (try split) <;> rfl

@[simp] theorem addOrderItem_now (s : Storage) (ins : InsertOrderItem) :
    (addOrderItem s ins).1.now = s.now := by
  unfold addOrderItem; (try split) <;> (try split) <;> rfl

@[simp] theorem createPayment_users (s : Storage) (ins : InsertPayment) :
    (createPayment s ins).1.users = s.users := by
  unfold createPayment; (try split) <;> (try split) <;> rfl

@[simp] theorem createPayment_products (s : Storage) (ins : InsertPayment) :
    (createPayment s ins).1.products = s.products := by
  unfold createPayment; (try split) <;> (try split) <;> rfl

@[simp] theorem createPayment_carts (s : Storage) (ins : InsertPayment) :
    (createPayment s ins).1.carts = s.carts := by
  unfold createPayment; (try split) <;> (try split) <;> rfl

@[simp] theorem createPayment_cartItems (s : Storage) (ins : InsertPayment) :
    (createPayment s ins).1.cartItems = s.cartItems := by
  unfold createPayment; (try split) <;> (try split) <;> rfl

@[simp] theorem createPayment_orders (s : Storage) (ins : InsertPayment) :
    (createPayment s ins).1.orders = s.orders := by
  unfold createPayment; (try split) <;> (try split) <;> rfl

@[simp] theorem createPayment_orderItems (s : Storage) (ins : InsertPayment) :
    (createPayment s ins).1.orderItems = s.orderItems := by
  unfold createPayment; (try split) <;> (try split) <;> rfl

@[simp] theorem createPayment_notifications (s : Storage) (ins : InsertPayment) :
    (createPayment s ins).1.notifications = s.notifications := by
  unfold createPayment; (try split) <;> (try split) <;> rfl

@[simp] theorem createPayment_cartItemId (s : Storage) (ins : InsertPayment) :
    (createPayment s ins).1.cartItemId = s.cartItemId := by
  unfold createPayment; (try split) <;> (try split) <;> rfl

@[simp] theorem createPayment_orderId (s : Storage) (ins : InsertPayment) :
    (createPayment s ins).1.orderId = s.orderId := by
  unfold createPayment; (try split) <;> (try split) <;> rfl

@[simp] theorem createPayment_orderItemId (s : Storage) (ins : InsertPayment) :
    (createPayment s ins).1.orderItemId = s.orderItemId := by
  unfold createPayment; (try split) <;> (try split) <;> rfl

@[simp] theorem createPayment_now (s : Storage) (ins : InsertPayment) :
    (createPayment s ins).1.now = s.now := by
  unfold createPayment; (try split) <;> (try split) <;> rfl

@[simp] theorem updatePaymentStatus_users (s : Storage) (id : Nat) (st : PaymentStatus) :
    (updatePaymentStatus s id st).1.users = s.users := by
  unfold updatePaymentStatus; (try split) <;> (try split) <;> rfl

@[simp] theorem updatePaymentStatus_products (s : Storage) (id : Nat) (st : PaymentStatus) :
    (updatePaymentStatus s id st).1.products = s.products := by
  unfold updatePaymentStatus; (try split) <;> (try split) <;> rfl

@[simp] theorem updatePaymentStatus_carts (s : Storage) (id : Nat) (st : PaymentStatus) :
    (updatePaymentStatus s id st).1.carts = s.carts := by
  unfold updatePaymentStatus; (try split) <;> (try split) <;> rfl

@[simp] theorem updatePaymentStatus_cartItems (s : Storage) (id : Nat) (st : PaymentStatus) :
    (updatePaymentStatus s id st).1.cartItems = s.cartItems := by
  unfold updatePaymentStatus; (try split) <;> (try split) <;> rfl

@[simp] theorem updatePaymentStatus_orders (s : Storage) (id : Nat) (st : PaymentStatus) :
    (updatePaymentStatus s id st).1.orders = s.orders := by
  unfold updatePaymentStatus; (try split) <;> (try split) <;> rfl

@[simp] theorem updatePaymentStatus_orderItems (s : Storage) (id : Nat) (st : PaymentStatus) :
    (updatePaymentStatus s id st).1.orderItems = s.orderItems := by
  unfold updatePaymentStatus; (try split) <;> (try split) <;> rfl

@[simp] theorem updatePaymentStatus_notifications (s : Storage) (id : Nat) (st : PaymentStatus) :
    (updatePaymentStatus s id st).1.notifications = s.notifications := by
  unfold updatePaymentStatus; (try split) <;> (try split) <;> rfl

@[simp] theorem updatePaymentStatus_cartItemId (s : Storage) (id : Nat) (st : PaymentStatus) :
    (updatePaymentStatus s id st).1.cartItemId = s.cartItemId := by
  unfold updatePaymentStatus; (try split) <;> (try split) <;> rfl

@[simp] theorem updatePaymentStatus_orderId (s : Storage) (id : Nat) (st : PaymentStatus) :
    (updatePaymentStatus s id st).1.orderId = s.orderId := by
  unfold updatePaymentStatus; (try split) <;> (try split) <;> rfl

@[simp] theorem updatePaymentStatus_orderItemId (s : Storage) (id : Nat) (st : PaymentStatus) :
    (updatePaymentStatus s id st).1.orderItemId = s.orderItemId := by
  unfold updatePaymentStatus; (try split) <;> (try split) <;> rfl

@[simp] theorem updatePaymentStatus_paymentId (s : Storage) (id : Nat) (st : PaymentStatus) :
    (updatePaymentStatus s id st).1.paymentId = s.paymentId := by
  unfold updatePaymentStatus; (try split) <;> (try split) <;> rfl

@[simp] theorem updatePaymentStatus_now (s : Storage) (id : Nat) (st : PaymentStatus) :
    (updatePaymentStatus s id st).1.now = s.now := by
  unfold updatePaymentStatus; (try split) <;> (try split) <;> rfl

@[simp] theorem sendNotification_users (s : Storage) (r : Nat) (t u m : String) :
    (sendNotification s r t u m).users = s.users := by
  unfold sendNotification updateServiceStatus; (try split) <;> (try split) <;> rfl

@[simp] theorem sendNotification_products (s : Storage) (r : Nat) (t u m : String) :
    (sendNotification s r t u m).products = s.products := by
  unfold sendNotification updateServiceStatus; (try split) <;> (try split) <;> rfl

@[simp] theorem sendNotification_carts (s : Storage) (r : Nat) (t u m : String) :
    (sendNotification s r t u m).carts = s.carts := by
  unfold sendNotification updateServiceStatus; (try split) <;> (try split) <;> rfl

@[simp] theorem sendNotification_cartItems (s : Storage) (r : Nat) (t u m : String) :
    (sendNotification s r t u m).cartItems = s.cartItems := by
  unfold sendNotification updateServiceStatus; (try split) <;> (try split) <;> rfl

@[simp] theorem sendNotification_orders (s : Storage) (r : Nat) (t u m : String) :
    (sendNotification s r t u m).orders = s.orders := by
  unfold sendNotification updateServiceStatus; (try split) <;> (try split) <;> rfl

@[simp] theorem sendNotification_orderItems (s : Storage) (r : Nat) (t u m : String) :
    (sendNotification s r t u m).orderItems = s.orderItems := by
  unfold sendNotification updateServiceStatus; (try split) <;> (try split) <;> rfl

@[simp] theorem sendNotification_payments (s : Storage) (r : Nat) (t u m : String) :
    (sendNotification s r t u m).payments = s.payments := by
  unfold sendNotification updateServiceStatus; (try split) <;> (try split) <;> rfl

@[simp] theorem sendNotification_cartItemId (s : Storage) (r : Nat) (t u m : String) :
    (sendNotification s r t u m).cartItemId = s.cartItemId := by
  unfold sendNotification updateServiceStatus; (try split) <;> (try split) <;> rfl

@[simp] theorem sendNotification_orderId (s : Storage) (r : Nat) (t u m : String) :
    (sendNotification s r t u m).orderId = s.orderId := by
  unfold sendNotification updateServiceStatus; (try split) <;> (try split) <;> rfl

@[simp] theorem sendNotification_orderItemId (s : Storage) (r : Nat) (t u m : String) :
    (sendNotification s r t u m).orderItemId = s.orderItemId := by
  unfold sendNotification updateServiceStatus; (try split) <;> (try split) <;> rfl

@[simp] theorem sendNotification_paymentId (s : Storage) (r : Nat) (t u m : String) :
    (sendNotification s r t u m).paymentId = s.paymentId := by
  unfold sendNotification updateServiceStatus; (try split) <;> (try split) <;> rfl

@[simp] theorem sendNotification_now (s : Storage) (r : Nat) (t u m : String) :
    (sendNotification s r t u m).now = s.now := by
  unfold sendNotification updateServiceStatus; (try split) <;> (try split) <;> rfl

/-! ## Effect lemmas for the storage primitives -/

theorem mapGet_key {key : α → Nat} {l : List α} {k : Nat} {x : α}
    (h : mapGet key l k = some x) : key x = k := by
  unfold mapGet at h
  simpa using List.find?_some h

theorem mapGet_mem {key : α → Nat} {l : List α} {k : Nat} {x : α}
    (h : mapGet key l k = some x) : x ∈ l := by
  unfold mapGet at h
  exact List.mem_of_find?_eq_some h

theorem getOrder_id {s : Storage} {oid : Nat} {o : Order}
    (h : getOrder s oid = some o) : o.id = oid := mapGet_key h

theorem getPayment_id {s : Storage} {pid : Nat} {p : Payment}
    (h : getPayment s pid = some p) : p.id = pid := mapGet_key h

theorem getProduct_id {s : Storage} {pid : Nat} {p : Product}
    (h : getProduct s pid = some p) : p.id = pid := mapGet_key h

theorem getCart_of_mem_of_nodup {s : Storage} {c : Cart}
    (hnd : (s.carts.map Cart.id).Nodup) (hmem : c ∈ s.carts) :
    getCart s c.id = some c := mapGet_of_mem_of_nodup hnd hmem

theorem getCartByUserId_mem {s : Storage} {u : Nat} {c : Cart}
    (h : getCartByUserId s u = some c) : c ∈ s.carts :=
  List.mem_of_find?_eq_some h

/-- `updateOrderStatus` at a present id: the stored order's status is
replaced in place. -/
theorem updateOrderStatus_of_found {s : Storage} {oid : Nat} {o : Order}
    (st : OrderStatus) (h : getOrder s oid = some o) :
    updateOrderStatus s oid st =
      ({ s with orders := mapSet Order.id s.orders oid { o with status := st } },
       some { o with status := st }) := by
  unfold updateOrderStatus
  unfold getOrder at h
  rw [h]

theorem getOrder_updateOrderStatus_self {s : Storage} {oid : Nat} {o : Order}
    (st : OrderStatus) (h : getOrder s oid = some o) :
    getOrder (updateOrderStatus s oid st).1 oid = some { o with status := st } := by
  rw [updateOrderStatus_of_found st h]
  have hid : Order.id { o with status := st } = oid := getOrder_id (o := o) h
  exact mapGet_mapSet_same hid

/-- `updatePaymentStatus` at a present id: the stored payment's status is
replaced in place. -/
theorem updatePaymentStatus_of_found {s : Storage} {pid : Nat} {p : Payment}
    (st : PaymentStatus) (h : getPayment s pid = some p) :
    updatePaymentStatus s pid st =
      ({ s with payments := mapSet Payment.id s.payments pid { p with status := st } },
       some { p with status := st }) := by
  unfold updatePaymentStatus
  unfold getPayment at h
  rw [h]

theorem getPayment_updatePaymentStatus_self {s : Storage} {pid : Nat} {p : Payment}
    (st : PaymentStatus) (h : getPayment s pid = some p) :
    getPayment (updatePaymentStatus s pid st).1 pid = some { p with status := st } := by
  rw [updatePaymentStatus_of_found st h]
  have hid : Payment.id { p with status := st } = pid := getPayment_id (p := p) h
  exact mapGet_mapSet_same hid

/-- `createPayment` appends the fresh payment when the id counter dominates
the stored ids. -/
theorem createPayment_payments_of_dom {s : Storage} (ins : InsertPayment)
    (hdom : ∀ p ∈ s.payments, p.id < s.paymentId) :
    (createPayment s ins).1.payments = s.payments ++
      [{ id := s.paymentId, orderId := ins.orderId, amount := ins.amount,
         status := ins.status, paymentMethod := ins.paymentMethod,
         transactionId := ins.transactionId, createdAt := s.now }] := by
  unfold createPayment
  exact mapSet_of_fresh _ (fun p hp => Nat.ne_of_lt (hdom p hp))

/-- `createOrder` appends the fresh order when the id counter dominates the
stored ids. -/
theorem createOrder_orders_of_dom {s : Storage} (ins : InsertOrder)
    (hdom : ∀ o ∈ s.orders, o.id < s.orderId) :
    (createOrder s ins).1.orders = s.orders ++ [(createOrder s ins).2] := by
  unfold createOrder
  exact mapSet_of_fresh _ (fun o ho => Nat.ne_of_lt (hdom o ho))

/-- `addOrderItem` appends the fresh item when the id counter dominates the
stored ids. -/
theorem addOrderItem_orderItems_of_dom {s : Storage} (ins : InsertOrderItem)
    (hdom : ∀ x ∈ s.orderItems, x.id < s.orderItemId) :
    (addOrderItem s ins).1.orderItems = s.orderItems ++
      [{ id := s.orderItemId, orderId := ins.orderId, productId := ins.productId,
         quantity := ins.quantity, price := ins.price }] := by
  unfold addOrderItem
  exact mapSet_of_fresh _ (fun x hx => Nat.ne_of_lt (hdom x hx))

/-! ## The order-item loop of `createOrderFromCart` -/

/-- The inventory value stored for a product after the order-item loop
processes a line of quantity `q` against it. -/
def postInventory (p : Product) (q : Int) : Option Int :=
  match p.inventory with
  | none => none
  | some inv => if inv = 0 then some 0 else some (max 0 (inv - q))

theorem addOrderItem_orderItemId_succ (s : Storage) (ins : InsertOrderItem) :
    (addOrderItem s ins).1.orderItemId = s.orderItemId + 1 := rfl

theorem orderLineStep_orderItemId (oid : Nat) (st : Storage) (j : JoinedCartItem) :
    (orderLineStep oid st j).orderItemId = st.orderItemId + 1 := by
  unfold orderLineStep
  (try split) <;> (try split) <;>
    simp [updateProductInventory_orderItemId, addOrderItem_orderItemId_succ]

/-- The order-item loop body appends exactly one snapshot row. -/
theorem orderLineStep_orderItems (oid : Nat) (st : Storage) (j : JoinedCartItem)
    (hdom : ∀ x ∈ st.orderItems, x.id < st.orderItemId) :
    (orderLineStep oid st j).orderItems
      = st.orderItems ++
        [{ id := st.orderItemId, orderId := oid, productId := j.item.productId,
           quantity := j.item.quantity, price := j.product.price }] := by
  unfold orderLineStep
  (try split) <;> (try split) <;>
    simp [updateProductInventory_orderItems, addOrderItem_orderItems_of_dom _ hdom]

theorem orderLineStep_dom {oid : Nat} {st : Storage} {j : JoinedCartItem}
    (hdom : ∀ x ∈ st.orderItems, x.id < st.orderItemId) :
    ∀ x ∈ (orderLineStep oid st j).orderItems,
      x.id < (orderLineStep oid st j).orderItemId := by
  intro x hx
  rw [orderLineStep_orderItems oid st j hdom] at hx
  rw [orderLineStep_orderItemId oid st j]
  rcases List.mem_append.mp hx with h1 | h2
  · exact Nat.lt_succ_of_lt (hdom x h1)
  · rw [List.mem_singleton.mp h2]
    exact Nat.lt_succ_self _

@[simp] theorem orderLineStep_users (oid : Nat) (st : Storage) (j : JoinedCartItem) :
    (orderLineStep oid st j).users = st.users := by
  unfold orderLineStep; (try split) <;> (try split) <;> simp

@[simp] theorem orderLineStep_carts (oid : Nat) (st : Storage) (j : JoinedCartItem) :
    (orderLineStep oid st j).carts = st.carts := by
  unfold orderLineStep; (try split) <;> (try split) <;> simp

@[simp] theorem orderLineStep_cartItems (oid : Nat) (st : Storage) (j : JoinedCartItem) :
    (orderLineStep oid st j).cartItems = st.cartItems := by
  unfold orderLineStep; (try split) <;> (try split) <;> simp

@[simp] theorem orderLineStep_orders (oid : Nat) (st : Storage) (j : JoinedCartItem) :
    (orderLineStep oid st j).orders = st.orders := by
  unfold orderLineStep; (try split) <;> (try split) <;> simp

@[simp] theorem orderLineStep_payments (oid : Nat) (st : Storage) (j : JoinedCartItem) :
    (orderLineStep oid st j).payments = st.payments := by
  unfold orderLineStep; (try split) <;> (try split) <;> simp

@[simp] theorem orderLineStep_notifications (oid : Nat) (st : Storage) (j : JoinedCartItem) :
    (orderLineStep oid st j).notifications = st.notifications := by
  unfold orderLineStep; (try split) <;> (try split) <;> simp

theorem lineFold_users (l : List JoinedCartItem) (oid : Nat) (st : Storage) :
    (l.foldl (orderLineStep oid) st).users = st.users := by
  induction l generalizing st with
  | nil => rfl
  | cons j l ih => rw [List.foldl_cons, ih, orderLineStep_users]

theorem lineFold_carts (l : List JoinedCartItem) (oid : Nat) (st : Storage) :
    (l.foldl (orderLineStep oid) st).carts = st.carts := by
  induction l generalizing st with
  | nil => rfl
  | cons j l ih => rw [List.foldl_cons, ih, orderLineStep_carts]

theorem lineFold_cartItems (l : List JoinedCartItem) (oid : Nat) (st : Storage) :
    (l.foldl (orderLineStep oid) st).cartItems = st.cartItems := by
  induction l generalizing st with
  | nil => rfl
  | cons j l ih => rw [List.foldl_cons, ih, orderLineStep_cartItems]

theorem lineFold_orders (l : List JoinedCartItem) (oid : Nat) (st : Storage) :
    (l.foldl (orderLineStep oid) st).orders = st.orders := by
  induction l generalizing st with
  | nil => rfl
  | cons j l ih => rw [List.foldl_cons, ih, orderLineStep_orders]

theorem lineFold_payments (l : List JoinedCartItem) (oid : Nat) (st : Storage) :
    (l.foldl (orderLineStep oid) st).payments = st.payments := by
  induction l generalizing st with
  | nil => rfl
  | cons j l ih => rw [List.foldl_cons, ih, orderLineStep_payments]

theorem lineFold_notifications (l : List JoinedCartItem) (oid : Nat) (st : Storage) :
    (l.foldl (orderLineStep oid) st).notifications = st.notifications := by
  induction l generalizing st with
  | nil => rfl
  | cons j l ih => rw [List.foldl_cons, ih, orderLineStep_notifications]

theorem lineFold_dom (l : List JoinedCartItem) (oid : Nat) :
    ∀ st : Storage, (∀ x ∈ st.orderItems, x.id < st.orderItemId) →
      ∀ x ∈ (l.foldl (orderLineStep oid) st).orderItems,
        x.id < (l.foldl (orderLineStep oid) st).orderItemId := by
  induction l with
  | nil => intro st h; exact h
  | cons j l ih =>
    intro st hdom
    rw [List.foldl_cons]
    exact ih _ (orderLineStep_dom hdom)

/-- The (productId, quantity, price) snapshot of an order item. -/
def orderItemSnapshot (x : OrderItem) : Nat × Int × Rat :=
  (x.productId, x.quantity, x.price)

/-- The order-item loop appends one snapshot per joined cart line, in
order. -/
theorem lineFold_orderItems_filter (l : List JoinedCartItem) (oid : Nat) :
    ∀ st : Storage, (∀ x ∈ st.orderItems, x.id < st.orderItemId) →
      ((l.foldl (orderLineStep oid) st).orderItems.filter
          (fun x => x.orderId == oid)).map orderItemSnapshot
        = (st.orderItems.filter (fun x => x.orderId == oid)).map orderItemSnapshot
          ++ l.map (fun j => (j.item.productId, j.item.quantity, j.product.price)) := by
  induction l with
  | nil => intro st _; simp
  | cons j l ih =>
    intro st hdom
    rw [List.foldl_cons, ih _ (orderLineStep_dom hdom),
      orderLineStep_orderItems oid st j hdom, List.filter_append, List.map_append,
      List.map_cons, List.append_assoc]
    congr 1
    simp [orderItemSnapshot]

@[simp] theorem getProduct_addOrderItem (s : Storage) (ins : InsertOrderItem)
    (pid : Nat) : getProduct (addOrderItem s ins).1 pid = getProduct s pid := by
  unfold getProduct; rw [addOrderItem_products]

theorem getProduct_updateProductInventory_ne {s : Storage} {id pid : Nat}
    {inv : Option Int} (h : pid ≠ id) :
    getProduct (updateProductInventory s id inv).1 pid = getProduct s pid := by
  unfold updateProductInventory
  cases hm : mapGet Product.id s.products id with
  | none => rfl
  | some product =>
    have h1 : product.id = id := mapGet_key hm
    have h2 : Product.id { product with inventory := inv } = id := h1
    exact mapGet_mapSet_ne h2 h

theorem getProduct_updateProductInventory_self {s : Storage} {id : Nat}
    {inv : Option Int} {p : Product} (h : getProduct s id = some p) :
    getProduct (updateProductInventory s id inv).1 id
      = some { p with inventory := inv } := by
  unfold updateProductInventory
  unfold getProduct at h
  rw [h]
  have h1 : p.id = id := mapGet_key h
  have h2 : Product.id { p with inventory := inv } = id := h1
  exact mapGet_mapSet_same h2

theorem orderLineStep_getProduct_ne {oid : Nat} {st : Storage}
    {j : JoinedCartItem} {pid : Nat} (h : pid ≠ j.product.id) :
    getProduct (orderLineStep oid st j) pid = getProduct st pid := by
  unfold orderLineStep
  (try split) <;> (try split) <;>
    simp [getProduct_updateProductInventory_ne h, getProduct_addOrderItem]

theorem orderLineStep_getProduct_self {oid : Nat} {st : Storage}
    {j : JoinedCartItem} (h : getProduct st j.product.id = some j.product) :
    getProduct (orderLineStep oid st j) j.product.id
      = some { j.product with
                inventory := postInventory j.product j.item.quantity } := by
  unfold orderLineStep
  cases hinv : j.product.inventory with
  | none =>
    dsimp only
    have hpost : postInventory j.product j.item.quantity = none := by
      unfold postInventory; rw [hinv]
    rw [hpost, getProduct_addOrderItem, h]
    rw [show (none : Option Int) = j.product.inventory from hinv.symm]
  | some inv =>
    dsimp only
    by_cases h0 : inv = 0
    · rw [if_pos h0]
      have hpost : postInventory j.product j.item.quantity = some 0 := by
        simp [postInventory, hinv, h0]
      rw [hpost, getProduct_addOrderItem, h]
      rw [show (some (0:Int) : Option Int) = j.product.inventory by rw [hinv, h0]]
    · rw [if_neg h0]
      have hpost : postInventory j.product j.item.quantity
          = some (max 0 (inv - j.item.quantity)) := by
        simp [postInventory, hinv, h0]
      rw [hpost]
      exact getProduct_updateProductInventory_self (by rw [getProduct_addOrderItem]; exact h)

theorem lineFold_getProduct_ne (l : List JoinedCartItem) (oid : Nat) {pid : Nat}
    (h : ∀ j ∈ l, j.product.id ≠ pid) :
    ∀ st : Storage,
      getProduct (l.foldl (orderLineStep oid) st) pid = getProduct st pid := by
  induction l with
  | nil => intro st; rfl
  | cons j l ih =>
    intro st
    rw [List.foldl_cons, ih (fun x hx => h x (List.mem_cons_of_mem j hx)),
      orderLineStep_getProduct_ne (Ne.symm (h j (List.mem_cons_self j l)))]

theorem lineFold_getProduct_mem (l : List JoinedCartItem) (oid : Nat)
    {j : JoinedCartItem} (hmem : j ∈ l)
    (hnd : (l.map (fun x => x.product.id)).Nodup) :
    ∀ st : Storage, getProduct st j.product.id = some j.product →
      getProduct (l.foldl (orderLineStep oid) st) j.product.id
        = some { j.product with
                  inventory := postInventory j.product j.item.quantity } := by
  induction l with
  | nil => cases hmem
  | cons j' l ih =>
    intro st hcur
    rw [List.map_cons, List.nodup_cons] at hnd
    rw [List.foldl_cons]
    rcases List.mem_cons.mp hmem with rfl | hmem'
    · have htail : ∀ x ∈ l, x.product.id ≠ j.product.id := by
        intro x hx e
        exact hnd.1 (e ▸ List.mem_map_of_mem (fun y => y.product.id) hx)
      rw [lineFold_getProduct_ne l oid htail _]
      exact orderLineStep_getProduct_self hcur
    · have hne : j.product.id ≠ j'.product.id := by
        intro e
        exact hnd.1 (e ▸ List.mem_map_of_mem (fun y => y.product.id) hmem')
      refine ih hmem' hnd.2 _ ?_
      rw [orderLineStep_getProduct_ne hne]
      exact hcur

/-! ## The cart-clearing loop of `createOrderFromCart` -/

@[simp] theorem clearCartStep_users (st : Storage) (j : JoinedCartItem) :
    (clearCartStep st j).users = st.users := rfl

@[simp] theorem clearCartStep_products (st : Storage) (j : JoinedCartItem) :
    (clearCartStep st j).products = st.products := rfl

@[simp] theorem clearCartStep_carts (st : Storage) (j : JoinedCartItem) :
    (clearCartStep st j).carts = st.carts := rfl

@[simp] theorem clearCartStep_orders (st : Storage) (j : JoinedCartItem) :
    (clearCartStep st j).orders = st.orders := rfl

@[simp] theorem clearCartStep_orderItems (st : Storage) (j : JoinedCartItem) :
    (clearCartStep st j).orderItems = st.orderItems := rfl

@[simp] theorem clearCartStep_payments (st : Storage) (j : JoinedCartItem) :
    (clearCartStep st j).payments = st.payments := rfl

@[simp] theorem clearCartStep_notifications (st : Storage) (j : JoinedCartItem) :
    (clearCartStep st j).notifications = st.notifications := rfl

theorem clearFold_users (l : List JoinedCartItem) :
    ∀ st : Storage, (l.foldl clearCartStep st).users = st.users := by
  induction l with
  | nil => intro st; rfl
  | cons j l ih => intro st; rw [List.foldl_cons, ih, clearCartStep_users]

theorem clearFold_products (l : List JoinedCartItem) :
    ∀ st : Storage, (l.foldl clearCartStep st).products = st.products := by
  induction l with
  | nil => intro st; rfl
  | cons j l ih => intro st; rw [List.foldl_cons, ih, clearCartStep_products]

theorem clearFold_carts (l : List JoinedCartItem) :
    ∀ st : Storage, (l.foldl clearCartStep st).carts = st.carts := by
  induction l with
  | nil => intro st; rfl
  | cons j l ih => intro st; rw [List.foldl_cons, ih, clearCartStep_carts]

theorem clearFold_orders (l : List JoinedCartItem) :
    ∀ st : Storage, (l.foldl clearCartStep st).orders = st.orders := by
  induction l with
  | nil => intro st; rfl
  | cons j l ih => intro st; rw [List.foldl_cons, ih, clearCartStep_orders]

theorem clearFold_orderItems (l : List JoinedCartItem) :
    ∀ st : Storage, (l.foldl clearCartStep st).orderItems = st.orderItems := by
  induction l with
  | nil => intro st; rfl
  | cons j l ih => intro st; rw [List.foldl_cons, ih, clearCartStep_orderItems]

theorem clearFold_payments (l : List JoinedCartItem) :
    ∀ st : Storage, (l.foldl clearCartStep st).payments = st.payments := by
  induction l with
  | nil => intro st; rfl
  | cons j l ih => intro st; rw [List.foldl_cons, ih, clearCartStep_payments]

theorem clearFold_notifications (l : List JoinedCartItem) :
    ∀ st : Storage, (l.foldl clearCartStep st).notifications = st.notifications := by
  induction l with
  | nil => intro st; rfl
  | cons j l ih => intro st; rw [List.foldl_cons, ih, clearCartStep_notifications]

theorem mem_of_mem_clearCartStep {st : Storage} {j : JoinedCartItem}
    {i : CartItem} (hi : i ∈ (clearCartStep st j).cartItems) :
    i ∈ st.cartItems ∧ i.id ≠ j.item.id := by
  unfold clearCartStep removeCartItem mapDelete at hi
  simp only [List.mem_filter, Bool.not_eq_eq_eq_not, Bool.not_true,
    beq_eq_false_iff_ne] at hi
  exact hi

/-- After the clearing loop, a cart whose every surviving item id is slated
for removal holds no items. -/
theorem clearFold_getCartItems_nil (l : List JoinedCartItem) (cid : Nat) :
    ∀ st : Storage,
      (∀ i ∈ st.cartItems, i.cartId = cid → ∃ j ∈ l, j.item.id = i.id) →
      getCartItems (l.foldl clearCartStep st) cid = [] := by
  induction l with
  | nil =>
    intro st h
    unfold getCartItems
    rw [List.filter_eq_nil_iff]
    intro i hi hcid
    rcases h i hi (by simpa using hcid) with ⟨j, hj, -⟩
    exact List.not_mem_nil j hj
  | cons j l ih =>
    intro st h
    rw [List.foldl_cons]
    apply ih
    intro i hi hcid
    rcases mem_of_mem_clearCartStep hi with ⟨hmem, hne⟩
    rcases h i hmem hcid with ⟨j', hj', hid⟩
    rcases List.mem_cons.mp hj' with rfl | hj''
    · exact absurd hid.symm hne
    · exact ⟨j', hj'', hid⟩

/-! ## The cart join and a successful `createOrderFromCart` run -/

theorem mem_getCartItems_iff {s : Storage} {cid : Nat} {i : CartItem} :
    i ∈ getCartItems s cid ↔ i ∈ s.cartItems ∧ i.cartId = cid := by
  unfold getCartItems
  simp [List.mem_filter]

theorem mem_joined_elim {s : Storage} {cid : Nat} {j : JoinedCartItem}
    (h : j ∈ joinedCartItems s cid) :
    j.item ∈ getCartItems s cid ∧ getProduct s j.item.productId = some j.product := by
  unfold joinedCartItems at h
  rcases List.mem_filterMap.mp h with ⟨i, hi, hmap⟩
  rcases Option.map_eq_some'.mp hmap with ⟨p, hp, hjp⟩
  cases hjp
  exact ⟨hi, hp⟩

theorem mem_joined_intro {s : Storage} {cid : Nat} {i : CartItem} {p : Product}
    (hi : i ∈ getCartItems s cid) (hp : getProduct s i.productId = some p) :
    (⟨i, p⟩ : JoinedCartItem) ∈ joinedCartItems s cid := by
  unfold joinedCartItems
  exact List.mem_filterMap.mpr ⟨i, hi, by rw [hp]; rfl⟩

/-- The joined lines' product ids form a sublist of the cart items'
product ids. -/
theorem joined_pids_sublist (s : Storage) (cid : Nat) :
    ((joinedCartItems s cid).map (fun j => j.product.id)).Sublist
      ((getCartItems s cid).map (fun i => i.productId)) := by
  unfold joinedCartItems
  generalize getCartItems s cid = l
  induction l with
  | nil => simp
  | cons i l ih =>
    rw [List.filterMap_cons, List.map_cons]
    cases hp : getProduct s i.productId with
    | none => exact ih.cons _
    | some p =>
      rw [Option.map_some', List.map_cons]
      have : p.id = i.productId := getProduct_id hp
      rw [this]
      exact ih.cons₂ _

theorem getCartWithItems_of_found {s : Storage} {cid : Nat} {c : Cart}
    (h : getCart s cid = some c) :
    getCartWithItems s cid = some
      { cart := c, items := joinedCartItems s cid,
        subtotal := ((joinedCartItems s cid).map
          (fun j => j.product.price * (j.item.quantity : Rat))).sum,
        totalItems := ((joinedCartItems s cid).map (fun j => j.item.quantity)).sum } := by
  unfold getCartWithItems
  rw [h]

/-- Anatomy of a successful `createOrderFromCart` run: the order row written,
the order-item snapshots, the emptied cart, and the untouched carts and
notification log.  The freshness hypotheses say the id counters dominate the
stored ids, which holds in every state `MemStorage` actually reaches. -/
theorem createOrderFromCart_spec {s : Storage} {u : Nat} {cart : Cart}
    (addr : String)
    (hcart : getCartByUserId s u = some cart)
    (hgc : getCart s cart.id = some cart)
    (hne : joinedCartItems s cart.id ≠ [])
    (hall : ∀ i ∈ getCartItems s cart.id,
      ∃ j ∈ joinedCartItems s cart.id, j.item.id = i.id)
    (hodom : ∀ o ∈ s.orders, o.id < s.orderId)
    (hoidom : ∀ x ∈ s.orderItems, x.id < s.orderItemId)
    (hoifresh : ∀ x ∈ s.orderItems, x.orderId ≠ s.orderId) :
    ∃ t : Storage,
      createOrderFromCart s u addr = .ok (t, getOrderWithItems t s.orderId) ∧
      getOrder t s.orderId = some
        { id := s.orderId, userId := u, status := .pending,
          total := ((joinedCartItems s cart.id).map
            (fun j => j.product.price * (j.item.quantity : Rat))).sum,
          shippingAddress := addr, orderId := renderOrderId s.orderId,
          createdAt := s.now } ∧
      (getOrderItems t s.orderId).map orderItemSnapshot
        = (joinedCartItems s cart.id).map
            (fun j => (j.item.productId, j.item.quantity, j.product.price)) ∧
      t.carts = s.carts ∧
      getCartItems t cart.id = [] ∧
      t.notifications = s.notifications ∧
      (∀ j ∈ joinedCartItems s cart.id,
        ((joinedCartItems s cart.id).map (fun x => x.product.id)).Nodup →
        getProduct t j.product.id = some
          { j.product with
              inventory := postInventory j.product j.item.quantity }) := by
  set J := joinedCartItems s cart.id with hJ
  set ins : InsertOrder :=
    { userId := u, status := .pending,
      total := (J.map (fun j => j.product.price * (j.item.quantity : Rat))).sum,
      shippingAddress := addr } with hins
  set s1 := (createOrder s ins).1 with hs1
  set s2 := J.foldl (orderLineStep s.orderId) s1 with hs2
  set t := J.foldl clearCartStep s2 with ht
  have hs1oi : s1.orderItems = s.orderItems := createOrder_orderItems s ins
  have hs1ctr : s1.orderItemId = s.orderItemId := createOrder_orderItemId s ins
  have hdom1 : ∀ x ∈ s1.orderItems, x.id < s1.orderItemId := by
    rw [hs1oi, hs1ctr]; exact hoidom
  refine ⟨t, ?_, ?_, ?_, ?_, ?_, ?_, ?_⟩
  · -- shape of the run
    unfold createOrderFromCart
    rw [hcart]
    dsimp only
    rw [getCartWithItems_of_found hgc]
    dsimp only
    rw [if_neg (by simpa using hne)]
    rfl
  · -- the created order row
    have horders : t.orders = s.orders ++ [(createOrder s ins).2] := by
      rw [ht, clearFold_orders, hs2, lineFold_orders, hs1,
        createOrder_orders_of_dom ins hodom]
    unfold getOrder mapGet
    rw [horders, List.find?_append, List.find?_eq_none.mpr
      (fun o ho => by simpa using Nat.ne_of_lt (hodom o ho)), Option.none_or,
      List.find?_cons_of_pos (p := fun x : Order => x.id == s.orderId) _
        (by simp [createOrder])]
    rfl
  · -- one order-item snapshot per joined line
    have hOI : t.orderItems = s2.orderItems := by
      rw [ht, clearFold_orderItems]
    unfold getOrderItems
    rw [hOI, hs2, lineFold_orderItems_filter J s.orderId s1 hdom1, hs1oi]
    rw [List.filter_eq_nil_iff.mpr
      (fun x hx => by simpa using hoifresh x hx), List.map_nil, List.nil_append]
  · rw [ht, clearFold_carts, hs2, lineFold_carts, hs1, createOrder_carts]
  · -- cart emptied
    rw [ht]
    apply clearFold_getCartItems_nil
    intro i hi hcid
    have hi' : i ∈ s.cartItems := by
      rw [hs2, lineFold_cartItems, hs1, createOrder_cartItems] at hi
      exact hi
    exact hall i (mem_getCartItems_iff.mpr ⟨hi', hcid⟩)
  · rw [ht, clearFold_notifications, hs2, lineFold_notifications, hs1,
      createOrder_notifications]
  · -- inventory decrement for every joined product
    intro j hj hnd
    have hel := mem_joined_elim (hJ ▸ hj)
    have hpid : j.product.id = j.item.productId := getProduct_id hel.2
    have hcur : getProduct s1 j.product.id = some j.product := by
      unfold getProduct
      rw [hs1, createOrder_products, hpid]
      exact hel.2
    have hfold := lineFold_getProduct_mem J s.orderId hj hnd s1 hcur
    unfold getProduct
    rw [ht, clearFold_products]
    exact hfold

/-! ## `processPayment` runs -/

theorem getOrder_congr {s s' : Storage} (h : s'.orders = s.orders) (oid : Nat) :
    getOrder s' oid = getOrder s oid := by
  unfold getOrder mapGet
  rw [h]

/-- A second `processPayment` against an order that already has a payment
throws without touching the state. -/
theorem processPayment_dup {s : Storage} {oid : Nat} {p : Payment}
    (a : Rat) (m txn : String) (mock : Bool)
    (h : getPaymentByOrderId s oid = some p) :
    processPayment s oid a m mock txn =
      .error ("Payment already exists for order " ++ toString oid) := by
  unfold processPayment
  rw [h]

/-- Successful mock payment: one completed payment row is appended for the
order and the order, when present, advances to `processing`. -/
theorem processPayment_success {s : Storage} {oid : Nat} (amount : Rat)
    (method txn : String)
    (h0 : getPaymentByOrderId s oid = none)
    (hdom : ∀ p ∈ s.payments, p.id < s.paymentId) :
    ∃ t : Storage,
      processPayment s oid amount method true txn =
        .ok (t, { id := s.paymentId, orderId := oid, amount := amount,
                  status := .completed, paymentMethod := method,
                  transactionId := some txn, createdAt := s.now }) ∧
      t.payments = s.payments ++
        [{ id := s.paymentId, orderId := oid, amount := amount,
           status := .completed, paymentMethod := method,
           transactionId := some txn, createdAt := s.now }] ∧
      getPaymentByOrderId t oid = some
        { id := s.paymentId, orderId := oid, amount := amount,
          status := .completed, paymentMethod := method,
          transactionId := some txn, createdAt := s.now } ∧
      (∀ o : Order, getOrder s oid = some o →
        getOrder t oid = some { o with status := .processing }) ∧
      (getOrder s oid = none → t.orders = s.orders) := by
  set pend : Payment :=
    { id := s.paymentId, orderId := oid, amount := amount, status := .pending,
      paymentMethod := method, transactionId := some txn, createdAt := s.now }
    with hpend
  set ins : InsertPayment :=
    { orderId := oid, amount := amount, status := .pending,
      paymentMethod := method, transactionId := some txn } with hins
  have hs1pay : (createPayment s ins).1.payments = s.payments ++ [pend] :=
    createPayment_payments_of_dom ins hdom
  have hget1 : getPayment (createPayment s ins).1 s.paymentId = some pend := by
    unfold getPayment mapGet
    rw [hs1pay, List.find?_append, List.find?_eq_none.mpr
      (fun p hp => by simpa using Nat.ne_of_lt (hdom p hp)), Option.none_or,
      List.find?_cons_of_pos (p := fun x : Payment => x.id == s.paymentId) _
        (by simp [hpend])]
  have hupd := updatePaymentStatus_of_found (s := (createPayment s ins).1)
    PaymentStatus.completed hget1
  have run1 : processPayment s oid amount method true txn
      = .ok ((updateOrderStatus
            { (createPayment s ins).1 with
                payments := mapSet Payment.id (createPayment s ins).1.payments
                  s.paymentId { pend with status := PaymentStatus.completed } }
            oid .processing).1,
          { pend with status := PaymentStatus.completed }) := by
    unfold processPayment
    rw [h0]
    dsimp only
    rw [if_pos rfl, ← hins,
      show (createPayment s ins).2.id = s.paymentId from rfl, hupd]
    rfl
  set t := (updateOrderStatus
      { (createPayment s ins).1 with
          payments := mapSet Payment.id (createPayment s ins).1.payments
            s.paymentId { pend with status := PaymentStatus.completed } }
      oid .processing).1 with htdef
  have hcompeq : ({ pend with status := PaymentStatus.completed } : Payment)
      = { id := s.paymentId, orderId := oid, amount := amount,
          status := .completed, paymentMethod := method,
          transactionId := some txn, createdAt := s.now } := rfl
  have htpay : t.payments = s.payments ++
      [{ id := s.paymentId, orderId := oid, amount := amount,
         status := .completed, paymentMethod := method,
         transactionId := some txn, createdAt := s.now }] := by
    rw [htdef, updateOrderStatus_payments]
    show mapSet Payment.id (createPayment s ins).1.payments s.paymentId
      { pend with status := PaymentStatus.completed } = _
    rw [hs1pay, ← hcompeq]
    exact mapSet_append_singleton (fun p hp => Nat.ne_of_lt (hdom p hp)) rfl
  have hmidorders : ({ (createPayment s ins).1 with
      payments := mapSet Payment.id (createPayment s ins).1.payments
        s.paymentId { pend with status := PaymentStatus.completed } } :
      Storage).orders = s.orders := createPayment_orders s ins
  refine ⟨t, by rw [run1, hcompeq], htpay, ?_, ?_, ?_⟩
  · unfold getPaymentByOrderId
    rw [htpay, List.find?_append]
    unfold getPaymentByOrderId at h0
    rw [h0, Option.none_or,
      List.find?_cons_of_pos (p := fun x : Payment => x.orderId == oid) _
        (by simp)]
  · intro o ho
    rw [htdef]
    exact getOrder_updateOrderStatus_self .processing
      ((getOrder_congr hmidorders oid).trans ho)
  · intro ho
    have hnone := (getOrder_congr hmidorders oid).trans ho
    rw [htdef]
    unfold updateOrderStatus
    unfold getOrder at hnone
    rw [hnone]
    exact hmidorders

/-- Failed mock payment: one failed payment row is appended for the order
and the orders table is untouched. -/
theorem processPayment_failure {s : Storage} {oid : Nat} (amount : Rat)
    (method txn : String)
    (h0 : getPaymentByOrderId s oid = none)
    (hdom : ∀ p ∈ s.payments, p.id < s.paymentId) :
    ∃ t : Storage,
      processPayment s oid amount method false txn =
        .ok (t, { id := s.paymentId, orderId := oid, amount := amount,
                  status := .failed, paymentMethod := method,
                  transactionId := some txn, createdAt := s.now }) ∧
      t.payments = s.payments ++
        [{ id := s.paymentId, orderId := oid, amount := amount,
           status := .failed, paymentMethod := method,
           transactionId := some txn, createdAt := s.now }] ∧
      getPaymentByOrderId t oid = some
        { id := s.paymentId, orderId := oid, amount := amount,
          status := .failed, paymentMethod := method,
          transactionId := some txn, createdAt := s.now } ∧
      t.orders = s.orders := by
  set pend : Payment :=
    { id := s.paymentId, orderId := oid, amount := amount, status := .pending,
      paymentMethod := method, transactionId := some txn, createdAt := s.now }
    with hpend
  set ins : InsertPayment :=
    { orderId := oid, amount := amount, status := .pending,
      paymentMethod := method, transactionId := some txn } with hins
  have hs1pay : (createPayment s ins).1.payments = s.payments ++ [pend] :=
    createPayment_payments_of_dom ins hdom
  have hget1 : getPayment (createPayment s ins).1 s.paymentId = some pend := by
    unfold getPayment mapGet
    rw [hs1pay, List.find?_append, List.find?_eq_none.mpr
      (fun p hp => by simpa using Nat.ne_of_lt (hdom p hp)), Option.none_or,
      List.find?_cons_of_pos (p := fun x : Payment => x.id == s.paymentId) _
        (by simp [hpend])]
  have hupd := updatePaymentStatus_of_found (s := (createPayment s ins).1)
    PaymentStatus.failed hget1
  have run1 : processPayment s oid amount method false txn
      = .ok (({ (createPayment s ins).1 with
            payments := mapSet Payment.id (createPayment s ins).1.payments
              s.paymentId { pend with status := PaymentStatus.failed } } : Storage),
          { pend with status := PaymentStatus.failed }) := by
    unfold processPayment
    rw [h0]
    dsimp only
    rw [if_neg (by simp), ← hins,
      show (createPayment s ins).2.id = s.paymentId from rfl, hupd]
    rfl
  set t : Storage := { (createPayment s ins).1 with
      payments := mapSet Payment.id (createPayment s ins).1.payments
        s.paymentId { pend with status := PaymentStatus.failed } } with htdef
  have hcompeq : ({ pend with status := PaymentStatus.failed } : Payment)
      = { id := s.paymentId, orderId := oid, amount := amount,
          status := .failed, paymentMethod := method,
          transactionId := some txn, createdAt := s.now } := rfl
  have htpay : t.payments = s.payments ++
      [{ id := s.paymentId, orderId := oid, amount := amount,
         status := .failed, paymentMethod := method,
         transactionId := some txn, createdAt := s.now }] := by
    rw [htdef]
    show mapSet Payment.id (createPayment s ins).1.payments s.paymentId
      { pend with status := PaymentStatus.failed } = _
    rw [hs1pay, ← hcompeq]
    exact mapSet_append_singleton (fun p hp => Nat.ne_of_lt (hdom p hp)) rfl
  refine ⟨t, by rw [run1, hcompeq], htpay, ?_, ?_⟩
  · unfold getPaymentByOrderId
    rw [htpay, List.find?_append]
    unfold getPaymentByOrderId at h0
    rw [h0, Option.none_or,
      List.find?_cons_of_pos (p := fun x : Payment => x.orderId == oid) _
        (by simp)]
  · rw [htdef]
    exact createPayment_orders s ins

/-! ## `processRefund` runs -/

/-- Refunding a payment that is not `completed` throws. -/
theorem processRefund_not_completed {cfg srf : Bool} {s : Storage} {pid : Nat}
    {pay : Payment} (amt : Option Rat)
    (hpay : getPayment s pid = some pay)
    (hst : pay.status ≠ PaymentStatus.completed) :
    processRefund cfg srf s pid amt =
      .error ("Cannot refund payment " ++ toString pid ++ " with status "
        ++ pay.status.str) := by
  unfold processRefund
  rw [hpay]
  dsimp only
  rw [if_pos hst]

/-- Refunding a completed payment (mock gateway mode): the payment becomes
`refunded` with its amount untouched and the order becomes `cancelled`. -/
theorem processRefund_success (srf : Bool) {s : Storage} {pid : Nat}
    {pay : Payment} {ord : Order} {u : User} (amt : Option Rat)
    (hpay : getPayment s pid = some pay)
    (hst : pay.status = PaymentStatus.completed)
    (horder : getOrder s pay.orderId = some ord)
    (huser : getUser s ord.userId = some u) :
    ∃ (t : Storage) (q : Payment),
      processRefund false srf s pid amt = .ok (t, q) ∧
      q = { pay with status := PaymentStatus.refunded } ∧
      getPayment t pid = some { pay with status := PaymentStatus.refunded } ∧
      getOrder t pay.orderId = some { ord with status := OrderStatus.cancelled } := by
  have hid : pay.id = pid := getPayment_id hpay
  have hpay' : getPayment s pay.id = some pay := by rw [hid]; exact hpay
  have hupd := updatePaymentStatus_of_found (s := s) PaymentStatus.refunded hpay'
  have hordid : ord.id = pay.orderId := getOrder_id horder
  have horder1 : getOrder
      ({ s with payments := mapSet Payment.id s.payments pay.id
                              { pay with status := PaymentStatus.refunded } } :
        Storage)
      ord.id = some ord := by
    have h2 : getOrder s ord.id = some ord := by rw [hordid]; exact horder
    exact h2
  have hupd2 := updateOrderStatus_of_found OrderStatus.cancelled horder1
  refine ⟨?v, ?w, ?runeq, ?hq, ?hp, ?ho⟩
  case runeq =>
    unfold processRefund
    rw [hpay]
    dsimp only
    rw [if_neg (by simp [hst])]
    rw [horder]
    dsimp only
    rw [huser]
    dsimp only
    rw [if_neg (by simp)]
    rw [hupd]
    dsimp only
    rw [hupd2]
    exact rfl
  case hq =>
    unfold getPayment mapGet
    rw [sendNotification_payments]
    show (mapGet Payment.id (mapSet Payment.id s.payments pay.id
      { pay with status := PaymentStatus.refunded }) pay.id).getD pay = _
    rw [show mapGet Payment.id (mapSet Payment.id s.payments pay.id
        { pay with status := PaymentStatus.refunded }) pay.id
      = some { pay with status := PaymentStatus.refunded } from
        mapGet_mapSet_same rfl]
    rfl
  case hp =>
    unfold getPayment mapGet
    rw [sendNotification_payments]
    show mapGet Payment.id (mapSet Payment.id s.payments pay.id
      { pay with status := PaymentStatus.refunded }) pid = _
    rw [← hid]
    exact mapGet_mapSet_same rfl
  case ho =>
    unfold getOrder mapGet
    rw [sendNotification_orders]
    show mapGet Order.id (mapSet Order.id s.orders ord.id
      { ord with status := OrderStatus.cancelled }) pay.orderId = _
    rw [← hordid]
    exact mapGet_mapSet_same rfl

/-! ## `addCartItem` runs -/

theorem mapSet_of_found {key : α → Nat} {l : List α} {k : Nat} (v : α)
    (hany : l.any (fun x => key x == k) = true) :
    mapSet key l k v = l.map (fun x => if key x == k then v else x) := by
  rw [mapSet, if_pos hany]

theorem length_filter_map_eq {f : α → α} {p : α → Bool} {l : List α}
    (h : ∀ x ∈ l, p (f x) = p x) :
    ((l.map f).filter p).length = (l.filter p).length := by
  induction l with
  | nil => rfl
  | cons x xs ih =>
    rw [List.map_cons, List.filter_cons, List.filter_cons,
      h x (List.mem_cons_self x xs)]
    have ih' := ih (fun y hy => h y (List.mem_cons_of_mem x hy))
    by_cases hp : p x
    · rw [if_pos hp, if_pos hp, List.length_cons, List.length_cons, ih']
    · rw [if_neg hp, if_neg hp, ih']

/-- `addCartItem` for a pair not yet in the cart: a fresh row with the given
quantity is appended. -/
theorem addCartItem_new {s : Storage} (ins : InsertCartItem)
    (hnone : s.cartItems.find?
      (fun i => i.cartId == ins.cartId && i.productId == ins.productId) = none)
    (hdom : ∀ i ∈ s.cartItems, i.id < s.cartItemId) :
    addCartItem s ins =
      ({ s with
          cartItems := s.cartItems ++
            [{ id := s.cartItemId, cartId := ins.cartId,
               productId := ins.productId, quantity := ins.quantity }],
          cartItemId := s.cartItemId + 1 },
       some { id := s.cartItemId, cartId := ins.cartId,
              productId := ins.productId, quantity := ins.quantity }) := by
  unfold addCartItem
  rw [hnone]
  dsimp only
  rw [mapSet_of_fresh _ (fun i hi => Nat.ne_of_lt (hdom i hi))]

/-- `addCartItem` for a pair already in the cart: the one existing row's
quantity is incremented in place. -/
theorem addCartItem_existing {s : Storage} (ins : InsertCartItem) {ex : CartItem}
    (hfind : s.cartItems.find?
      (fun i => i.cartId == ins.cartId && i.productId == ins.productId) = some ex)
    (hpos : 0 < ex.quantity + ins.quantity)
    (hnd : (s.cartItems.map CartItem.id).Nodup) :
    addCartItem s ins =
      ({ s with cartItems := mapSet CartItem.id s.cartItems ex.id
                               { ex with quantity := ex.quantity + ins.quantity } },
       some { ex with quantity := ex.quantity + ins.quantity }) := by
  unfold addCartItem
  rw [hfind]
  dsimp only
  unfold updateCartItem
  have hmem : ex ∈ s.cartItems := List.mem_of_find?_eq_some hfind
  have hget : mapGet CartItem.id s.cartItems ex.id =
      some ex := mapGet_of_mem_of_nodup hnd hmem
  rw [hget]
  dsimp only
  rw [if_neg (by omega)]

/-! ## The claims -/

/-- C9: the human-readable orderId string is derived from the numeric id in
the format `ORD-%04d` (numeric id 7 renders as `"ORD-0007"`), and parsing
the rendered string recovers the original numeric id, for all positive
ids.  (The parser is modelled from the spec; the repository only renders.) -/
theorem claim9_order_id_round_trip :
    renderOrderId 7 = "ORD-0007" ∧
    ∀ id : Nat, 1 ≤ id → parseOrderId (renderOrderId id) = some id := by
  constructor
  · decide
  · intro id h
    have hdata : ("ORD-" ++ String.mk (padStart4 (natToChars id))).data
        = 'O' :: 'R' :: 'D' :: '-' :: padStart4 (natToChars id) := rfl
    unfold renderOrderId parseOrderId
    rw [hdata]
    rw [if_pos (show List.take 4
      ('O' :: 'R' :: 'D' :: '-' :: padStart4 (natToChars id))
        = ['O', 'R', 'D', '-'] from rfl)]
    exact parseDecimalChars_padStart4_natToChars id

/-- C9 witness: the round-trip at the concrete id 7. -/
theorem claim9_order_id_round_trip_witness :
    renderOrderId 7 = "ORD-0007" ∧ parseOrderId (renderOrderId 7) = some 7 :=
  ⟨claim9_order_id_round_trip.1,
   claim9_order_id_round_trip.2 7 (by decide)⟩

/-- C10: `updateOrderStatus` and `updatePaymentStatus` replace only the
status field of the targeted record — every other field and every other
record (and every other table, visible in the unchanged remaining fields of
the state record) stay as they were; an absent id returns the `undefined`
sentinel and changes nothing. -/
theorem claim10_update_status_frame (s : Storage) (id : Nat)
    (ost : OrderStatus) (pst : PaymentStatus)
    (hno : (s.orders.map Order.id).Nodup)
    (hnp : (s.payments.map Payment.id).Nodup) :
    (getOrder s id = none → updateOrderStatus s id ost = (s, none)) ∧
    (∀ o, getOrder s id = some o →
      updateOrderStatus s id ost =
        ({ s with orders := s.orders.map (fun x =>
                              if x.id == id then { x with status := ost } else x) },
         some { o with status := ost })) ∧
    (getPayment s id = none → updatePaymentStatus s id pst = (s, none)) ∧
    (∀ p, getPayment s id = some p →
      updatePaymentStatus s id pst =
        ({ s with payments := s.payments.map (fun x =>
                                if x.id == id then { x with status := pst } else x) },
         some { p with status := pst })) := by
  refine ⟨?_, ?_, ?_, ?_⟩
  · intro h
    unfold updateOrderStatus
    unfold getOrder at h
    rw [h]
  · intro o h
    rw [updateOrderStatus_of_found ost h]
    have hmem : o ∈ s.orders := mapGet_mem h
    have hkey : o.id = id := mapGet_key h
    have hany : s.orders.any (fun x => Order.id x == id) = true :=
      List.any_eq_true.mpr ⟨o, hmem, by simp [hkey]⟩
    rw [mapSet_of_found _ hany]
    have hpt : ∀ x ∈ s.orders,
        (if Order.id x == id then { o with status := ost } else x)
          = (if x.id == id then { x with status := ost } else x) := by
      intro x hx
      by_cases hid : x.id = id
      · have : x = o := eq_of_key_eq_of_nodup hno hx hmem (hid.trans hkey.symm)
        rw [this]
      · rw [if_neg (by simpa using hid), if_neg (by simpa using hid)]
    rw [List.map_congr_left hpt]
  · intro h
    unfold updatePaymentStatus
    unfold getPayment at h
    rw [h]
  · intro p h
    rw [updatePaymentStatus_of_found pst h]
    have hmem : p ∈ s.payments := mapGet_mem h
    have hkey : p.id = id := mapGet_key h
    have hany : s.payments.any (fun x => Payment.id x == id) = true :=
      List.any_eq_true.mpr ⟨p, hmem, by simp [hkey]⟩
    rw [mapSet_of_found _ hany]
    have hpt : ∀ x ∈ s.payments,
        (if Payment.id x == id then { p with status := pst } else x)
          = (if x.id == id then { x with status := pst } else x) := by
      intro x hx
      by_cases hid : x.id = id
      · have : x = p := eq_of_key_eq_of_nodup hnp hx hmem (hid.trans hkey.symm)
        rw [this]
      · rw [if_neg (by simpa using hid), if_neg (by simpa using hid)]
    rw [List.map_congr_left hpt]

/-- Demo state for the C10 witness: one order and one payment, plus a
bystander order whose fields must survive untouched. -/
def frameDemo : Storage :=
  { users := [{ id := 1, username := "u1", email := "u1@example.com",
                isAdmin := false }],
    orders := [{ id := 1, userId := 1, status := .pending, total := 10,
                 shippingAddress := "A", orderId := "ORD-0001", createdAt := 0 },
               { id := 2, userId := 1, status := .shipped, total := 7,
                 shippingAddress := "B", orderId := "ORD-0002", createdAt := 0 }],
    payments := [{ id := 1, orderId := 1, amount := 10, status := .pending,
                   paymentMethod := "credit_card", transactionId := some "t1",
                   createdAt := 0 }],
    userId := 2, orderId := 3, paymentId := 2 }

/-- C10 witness: the frame theorem applied to `frameDemo` — the present
order 1 is restatused in place, the absent order 5 is reported as the
sentinel with the state unchanged. -/
theorem claim10_update_status_frame_witness :
    (updateOrderStatus frameDemo 1 .processing =
      ({ frameDemo with orders := frameDemo.orders.map (fun x =>
                          if x.id == 1 then { x with status := .processing } else x) },
       some { id := 1, userId := 1, status := .processing, total := 10,
              shippingAddress := "A", orderId := "ORD-0001", createdAt := 0 })) ∧
    updateOrderStatus frameDemo 5 .processing = (frameDemo, none) := by
  constructor
  · exact (claim10_update_status_frame frameDemo 1 .processing .completed
      (by decide) (by decide)).2.1
      { id := 1, userId := 1, status := .pending, total := 10,
        shippingAddress := "A", orderId := "ORD-0001", createdAt := 0 }
      (by decide)
  · exact (claim10_update_status_frame frameDemo 5 .processing .completed
      (by decide) (by decide)).1 (by decide)

/-- C2: for an order with no payment yet, two `processPayment` calls leave
exactly one Payment row for that order: the first succeeds, and the second
fails with the "payment already exists" error without creating a row (a
thrown error precedes every mutation).  The domination hypothesis is the
id-counter invariant of `MemStorage`. -/
theorem claim2_payment_idempotency (s : Storage) (oid : Nat)
    (a a' : Rat) (m m' txn txn' : String) (mock1 mock2 : Bool)
    (h0 : s.payments.filter (fun p => p.orderId == oid) = [])
    (hdom : ∀ p ∈ s.payments, p.id < s.paymentId) :
    ∃ (t : Storage) (p : Payment),
      processPayment s oid a m mock1 txn = .ok (t, p) ∧
      (t.payments.filter (fun q => q.orderId == oid)).length = 1 ∧
      processPayment t oid a' m' mock2 txn' =
        .error ("Payment already exists for order " ++ toString oid) := by
  have h0' : getPaymentByOrderId s oid = none := by
    unfold getPaymentByOrderId
    rw [List.find?_eq_none]
    intro p hp
    exact fun hpp => by
      have := List.filter_eq_nil_iff.mp h0 p hp
      exact this hpp
  have key : ∀ (pst : PaymentStatus) (t : Storage) (p : Payment),
      t.payments = s.payments ++ [p] → p.orderId = oid →
      (t.payments.filter (fun q => q.orderId == oid)).length = 1 := by
    intro pst t p hpay hporder
    rw [hpay, List.filter_append, h0, List.nil_append,
      List.filter_cons_of_pos (by simpa using hporder), List.filter_nil]
    rfl
  cases mock1 with
  | true =>
    obtain ⟨t, heq, hpay, hby, -, -⟩ :=
      processPayment_success a m txn h0' hdom
    exact ⟨t, _, heq, key .completed t _ hpay rfl,
      processPayment_dup a' m' txn' mock2 hby⟩
  | false =>
    obtain ⟨t, heq, hpay, hby, -⟩ :=
      processPayment_failure a m txn h0' hdom
    exact ⟨t, _, heq, key .failed t _ hpay rfl,
      processPayment_dup a' m' txn' mock2 hby⟩

/-- Demo state for payment claims: one pending order, no payments. -/
def paymentDemo : Storage :=
  { users := [{ id := 1, username := "u1", email := "u1@example.com",
                isAdmin := false }],
    orders := [{ id := 1, userId := 1, status := .pending, total := 25,
                 shippingAddress := "A", orderId := "ORD-0001", createdAt := 0 }],
    userId := 2, orderId := 2 }

/-- C2 witness: the double-call property at a concrete order. -/
theorem claim2_payment_idempotency_witness :
    ∃ (t : Storage) (p : Payment),
      processPayment paymentDemo 1 25 "credit_card" true "txn_a" = .ok (t, p) ∧
      (t.payments.filter (fun q => q.orderId == 1)).length = 1 ∧
      processPayment t 1 25 "credit_card" true "txn_b" =
        .error "Payment already exists for order 1" := by
  have h := claim2_payment_idempotency paymentDemo 1 25 25
    "credit_card" "credit_card" "txn_a" "txn_b" true true (by decide) (by decide)
  simpa using h

/-- C3: on a pending order with no payment, mock success completes the
payment and advances the order to `processing`; mock failure records a
failed payment and leaves the order pending and untouched. -/
theorem claim3_status_advance {s : Storage} {oid : Nat} {o : Order}
    (a : Rat) (m txn txn' : String)
    (horder : getOrder s oid = some o)
    (hpend : o.status = .pending)
    (h0 : getPaymentByOrderId s oid = none)
    (hdom : ∀ p ∈ s.payments, p.id < s.paymentId) :
    (∃ (t : Storage) (p : Payment),
      processPayment s oid a m true txn = .ok (t, p) ∧
      p.status = .completed ∧ getPaymentByOrderId t oid = some p ∧
      getOrder t oid = some { o with status := .processing }) ∧
    (∃ (t : Storage) (p : Payment),
      processPayment s oid a m false txn' = .ok (t, p) ∧
      p.status = .failed ∧ getPaymentByOrderId t oid = some p ∧
      getOrder t oid = some o ∧ o.status = .pending) := by
  constructor
  · obtain ⟨t, heq, -, hby, hord, -⟩ :=
      processPayment_success a m txn h0 hdom
    exact ⟨t, _, heq, rfl, hby, hord o horder⟩
  · obtain ⟨t, heq, -, hby, hords⟩ :=
      processPayment_failure a m txn' h0 hdom
    exact ⟨t, _, heq, rfl, hby, (getOrder_congr hords oid).trans horder, hpend⟩

/-- C3 witness: both branches at a concrete pending order. -/
theorem claim3_status_advance_witness :
    (∃ (t : Storage) (p : Payment),
      processPayment paymentDemo 1 25 "credit_card" true "txn_a" = .ok (t, p) ∧
      p.status = .completed ∧
      getOrder t 1 = some { id := 1, userId := 1, status := .processing,
                            total := 25, shippingAddress := "A",
                            orderId := "ORD-0001", createdAt := 0 }) ∧
    (∃ (t : Storage) (p : Payment),
      processPayment paymentDemo 1 25 "credit_card" false "txn_a" = .ok (t, p) ∧
      p.status = .failed ∧
      getOrder t 1 = some { id := 1, userId := 1, status := .pending,
                            total := 25, shippingAddress := "A",
                            orderId := "ORD-0001", createdAt := 0 }) := by
  obtain ⟨⟨t1, p1, he1, hs1, -, ho1⟩, ⟨t2, p2, he2, hs2, -, ho2, -⟩⟩ :=
    claim3_status_advance 25 "credit_card" "txn_a" "txn_a"
      (show getOrder paymentDemo 1
          = some { id := 1, userId := 1, status := .pending, total := 25,
                   shippingAddress := "A", orderId := "ORD-0001",
                   createdAt := 0 } by decide) (by decide) (by decide)
      (by decide)
  exact ⟨⟨t1, p1, he1, hs1, ho1⟩, ⟨t2, p2, he2, hs2, ho2⟩⟩

/-- C4: `createOrderFromCart` rejects a user without a cart with the
"Cart not found" error and a cart with zero CartItems with the
"Cart is empty" error; both throws happen before any mutation, so no order
is created and no state is modified. -/
theorem claim4_create_order_guards {s : Storage} {u : Nat} (addr : String) :
    (getCartByUserId s u = none →
      createOrderFromCart s u addr = .error "Cart not found") ∧
    (∀ cart, getCartByUserId s u = some cart → getCartItems s cart.id = [] →
      createOrderFromCart s u addr = .error "Cart is empty") := by
  constructor
  · intro h
    unfold createOrderFromCart
    rw [h]
  · intro cart hcart hempty
    unfold createOrderFromCart
    rw [hcart]
    dsimp only
    unfold getCartWithItems
    cases hgc : getCart s cart.id with
    | none => rfl
    | some c =>
      dsimp only
      have hj : joinedCartItems s cart.id = [] := by
        unfold joinedCartItems
        rw [hempty]
        rfl
      rw [hj]
      rfl

/-- Demo state for C4: user 1 owns an empty cart; user 2 has no cart. -/
def emptyCartDemo : Storage :=
  { users := [{ id := 1, username := "u1", email := "u1@example.com",
                isAdmin := false },
              { id := 2, username := "u2", email := "u2@example.com",
                isAdmin := false }],
    carts := [{ id := 1, userId := 1, createdAt := 0 }],
    userId := 3, cartId := 2 }

/-- C4 witness: both guards at concrete states. -/
theorem claim4_create_order_guards_witness :
    createOrderFromCart emptyCartDemo 2 "A" = .error "Cart not found" ∧
    createOrderFromCart emptyCartDemo 1 "A" = .error "Cart is empty" := by
  constructor
  · exact (claim4_create_order_guards (s := emptyCartDemo) (u := 2) "A").1
      (by decide)
  · exact (claim4_create_order_guards (s := emptyCartDemo) (u := 1) "A").2
      { id := 1, userId := 1, createdAt := 0 } (by decide) (by decide)

/-- C5: `processRefund` throws on any payment whose status is not
`completed` (in particular pending or failed); on a completed payment it
marks the payment `refunded` with its `amount` field unreduced, and cancels
the associated order.  (Mock gateway mode: no Stripe key configured.) -/
theorem claim5_refund_guard (srf : Bool) {s : Storage} {pid : Nat}
    {pay : Payment} (amt : Option Rat)
    (hpay : getPayment s pid = some pay) :
    (pay.status ≠ .completed → ∀ cfg : Bool,
      processRefund cfg srf s pid amt =
        .error ("Cannot refund payment " ++ toString pid ++ " with status "
          ++ pay.status.str)) ∧
    (pay.status = .completed →
      ∀ (ord : Order) (u : User), getOrder s pay.orderId = some ord →
        getUser s ord.userId = some u →
        ∃ (t : Storage) (q : Payment),
          processRefund false srf s pid amt = .ok (t, q) ∧
          q = { pay with status := .refunded } ∧
          q.amount = pay.amount ∧
          getPayment t pid = some { pay with status := .refunded } ∧
          getOrder t pay.orderId = some { ord with status := .cancelled }) := by
  constructor
  · intro hst cfg
    exact processRefund_not_completed amt hpay hst
  · intro hst ord u horder huser
    obtain ⟨t, q, heq, hq, hp, ho⟩ :=
      processRefund_success srf amt hpay hst horder huser
    exact ⟨t, q, heq, hq, by rw [hq], hp, ho⟩

/-- Demo state for C5: payment 1 is completed (refundable), payment 2 is
pending (not refundable), each attached to an order of user 1. -/
def refundDemo : Storage :=
  { users := [{ id := 1, username := "u1", email := "u1@example.com",
                isAdmin := false }],
    orders := [{ id := 1, userId := 1, status := .processing, total := 25,
                 shippingAddress := "A", orderId := "ORD-0001", createdAt := 0 },
               { id := 2, userId := 1, status := .pending, total := 9,
                 shippingAddress := "B", orderId := "ORD-0002", createdAt := 0 }],
    payments := [{ id := 1, orderId := 1, amount := 25, status := .completed,
                   paymentMethod := "credit_card", transactionId := some "t1",
                   createdAt := 0 },
                 { id := 2, orderId := 2, amount := 9, status := .pending,
                   paymentMethod := "credit_card", transactionId := some "t2",
                   createdAt := 0 }],
    userId := 2, orderId := 3, paymentId := 3 }

/-- C5 witness: refusal on the pending payment, full effect on the
completed one. -/
theorem claim5_refund_guard_witness :
    processRefund false false refundDemo 2 none =
      .error "Cannot refund payment 2 with status pending" ∧
    ∃ (t : Storage) (q : Payment),
      processRefund false false refundDemo 1 none = .ok (t, q) ∧
      q.status = .refunded ∧ q.amount = 25 ∧
      getOrder t 1 = some { id := 1, userId := 1, status := .cancelled,
                            total := 25, shippingAddress := "A",
                            orderId := "ORD-0001", createdAt := 0 } := by
  constructor
  · have h := (claim5_refund_guard false none
      (show getPayment refundDemo 2
          = some { id := 2, orderId := 2, amount := 9, status := .pending,
                   paymentMethod := "credit_card", transactionId := some "t2",
                   createdAt := 0 } by decide)).1 (by decide) false
    simpa using h
  · obtain ⟨t, q, heq, hq, ha, -, ho⟩ :=
      (claim5_refund_guard false none
        (show getPayment refundDemo 1
            = some { id := 1, orderId := 1, amount := 25, status := .completed,
                     paymentMethod := "credit_card", transactionId := some "t1",
                     createdAt := 0 } by decide)).2 rfl
        { id := 1, userId := 1, status := .processing, total := 25,
          shippingAddress := "A", orderId := "ORD-0001", createdAt := 0 }
        { id := 1, username := "u1", email := "u1@example.com",
          isAdmin := false } (by decide) (by decide)
    exact ⟨t, q, heq, by rw [hq], by rw [ha], ho⟩

/-- C8: `addCartItem` keeps at most one CartItem per (cartId, productId)
pair: a product already in the cart has its one row's quantity incremented
in place (no second row — the list is mapped, not extended), an absent
product gets a fresh row with the given quantity, and a state with at most
one row per pair keeps that bound. -/
theorem claim8_cart_item_uniqueness (s : Storage) (ins : InsertCartItem)
    (hnd : (s.cartItems.map CartItem.id).Nodup)
    (hdom : ∀ i ∈ s.cartItems, i.id < s.cartItemId) :
    (s.cartItems.find?
        (fun i => i.cartId == ins.cartId && i.productId == ins.productId) = none →
      (addCartItem s ins).1.cartItems = s.cartItems ++
        [{ id := s.cartItemId, cartId := ins.cartId,
           productId := ins.productId, quantity := ins.quantity }]) ∧
    (∀ ex, s.cartItems.find?
        (fun i => i.cartId == ins.cartId && i.productId == ins.productId)
          = some ex →
      0 < ex.quantity + ins.quantity →
      (addCartItem s ins).1.cartItems = s.cartItems.map (fun i : CartItem =>
        if i.id == ex.id then { ex with quantity := ex.quantity + ins.quantity }
        else i) ∧
      (addCartItem s ins).1.cartItems.length = s.cartItems.length) ∧
    (∀ cid pid : Nat,
      (s.cartItems.filter
        (fun i => i.cartId == cid && i.productId == pid)).length ≤ 1 →
      ((addCartItem s ins).1.cartItems.filter
        (fun i => i.cartId == cid && i.productId == pid)).length ≤ 1) := by
  refine ⟨?_, ?_, ?_⟩
  · intro hnone
    rw [addCartItem_new ins hnone hdom]
  · intro ex hfind hpos
    have hmem : ex ∈ s.cartItems := List.mem_of_find?_eq_some hfind
    have hany : s.cartItems.any (fun x => CartItem.id x == ex.id) = true :=
      List.any_eq_true.mpr ⟨ex, hmem, by simp⟩
    rw [addCartItem_existing ins hfind hpos hnd]
    dsimp only
    rw [mapSet_of_found _ hany]
    exact ⟨rfl, List.length_map _ _⟩
  · intro cid pid hle
    cases hfind : s.cartItems.find?
        (fun i => i.cartId == ins.cartId && i.productId == ins.productId) with
    | none =>
      rw [addCartItem_new ins hfind hdom]
      dsimp only
      rw [List.filter_append, List.length_append]
      by_cases hm : ins.cartId = cid ∧ ins.productId = pid
      · have hobs : s.cartItems.filter
            (fun i => i.cartId == cid && i.productId == pid) = [] := by
          rw [List.filter_eq_nil_iff]
          intro i hi hp
          have := List.find?_eq_none.mp hfind i hi
          rw [hm.1, hm.2] at this
          exact this hp
        rw [hobs]
        simp only [List.length_nil, Nat.zero_add]
        exact List.length_filter_le _ _
      · have hnew : List.filter
            (fun i : CartItem => i.cartId == cid && i.productId == pid)
            [{ id := s.cartItemId, cartId := ins.cartId,
               productId := ins.productId, quantity := ins.quantity }] = [] := by
          rw [List.filter_eq_nil_iff]
          intro i hi hp
          rw [List.mem_singleton.mp hi] at hp
          simp only [Bool.and_eq_true, beq_iff_eq] at hp
          exact hm ⟨hp.1, hp.2⟩
        rw [hnew]
        simpa using hle
    | some ex =>
      have hmem : ex ∈ s.cartItems := List.mem_of_find?_eq_some hfind
      have hany : s.cartItems.any (fun x => CartItem.id x == ex.id) = true :=
        List.any_eq_true.mpr ⟨ex, hmem, by simp⟩
      by_cases hpos : 0 < ex.quantity + ins.quantity
      · rw [addCartItem_existing ins hfind hpos hnd]
        dsimp only
        rw [mapSet_of_found _ hany]
        rw [length_filter_map_eq ?h]
        · exact hle
        case h =>
          intro x hx
          by_cases hid : x.id = ex.id
          · have hxe : x = ex := eq_of_key_eq_of_nodup hnd hx hmem hid
            rw [if_pos (by simpa using hid), hxe]
          · rw [if_neg (by simpa using hid)]
      · unfold addCartItem
        rw [hfind]
        dsimp only
        unfold updateCartItem
        rw [mapGet_of_mem_of_nodup hnd hmem]
        dsimp only
        rw [if_pos (by omega)]
        dsimp only
        exact le_trans (List.Sublist.length_le
          (List.Sublist.filter _ (List.filter_sublist _))) hle

/-- Demo state for C8: the cart holds product 1 (quantity 2); product 2 is
absent. -/
def cartDemo : Storage :=
  { users := [{ id := 1, username := "u1", email := "u1@example.com",
                isAdmin := false }],
    products := [{ id := 1, name := "A", price := 10, sku := "A1",
                   inventory := some 5, category := none },
                 { id := 2, name := "B", price := 5, sku := "B2",
                   inventory := some 5, category := none }],
    carts := [{ id := 1, userId := 1, createdAt := 0 }],
    cartItems := [{ id := 1, cartId := 1, productId := 1, quantity := 2 }],
    userId := 2, productId := 3, cartId := 2, cartItemId := 2 }

/-- C8 witness: adding product 1 again merges into the one existing row;
adding product 2 appends a fresh row. -/
theorem claim8_cart_item_uniqueness_witness :
    (addCartItem cartDemo { cartId := 1, productId := 1, quantity := 3 }).1.cartItems
      = [{ id := 1, cartId := 1, productId := 1, quantity := 5 }] ∧
    (addCartItem cartDemo { cartId := 1, productId := 2, quantity := 1 }).1.cartItems
      = [{ id := 1, cartId := 1, productId := 1, quantity := 2 },
         { id := 2, cartId := 1, productId := 2, quantity := 1 }] := by
  constructor
  · have h := (claim8_cart_item_uniqueness cartDemo
      { cartId := 1, productId := 1, quantity := 3 } (by decide) (by decide)).2.1
      { id := 1, cartId := 1, productId := 1, quantity := 2 }
      (by decide) (by decide)
    rw [h.1]
    decide
  · have h := (claim8_cart_item_uniqueness cartDemo
      { cartId := 1, productId := 2, quantity := 1 } (by decide) (by decide)).1
      (by decide)
    rw [h]
    decide

/-- When every cart item's product exists, the join keeps every line. -/
theorem joined_items_of_all {s : Storage} {cid : Nat}
    (hprod : ∀ i ∈ getCartItems s cid, (getProduct s i.productId).isSome) :
    (joinedCartItems s cid).map JoinedCartItem.item = getCartItems s cid := by
  unfold joinedCartItems
  have key : ∀ l : List CartItem, (∀ i ∈ l, (getProduct s i.productId).isSome) →
      (l.filterMap (fun i => (getProduct s i.productId).map
        (fun p => (⟨i, p⟩ : JoinedCartItem)))).map JoinedCartItem.item = l := by
    intro l
    induction l with
    | nil => intro _; rfl
    | cons i l ih =>
      intro h
      rw [List.filterMap_cons]
      cases hp : getProduct s i.productId with
      | none =>
        have := h i (List.mem_cons_self i l)
        rw [hp] at this
        cases this
      | some p =>
        rw [Option.map_some', List.map_cons,
          ih (fun x hx => h x (List.mem_cons_of_mem i hx))]
  exact key _ hprod

/-- C1 (amended): for every user whose cart contains at least one item and
whose every cart item references an existing product, `createOrderFromCart`
creates a pending order totalling Σ (current unit price × quantity) over the
cart's lines, snapshots exactly one OrderItem (productId, quantity, current
price) per cart line, and leaves the cart row present but empty.  The
counter-domination hypotheses are `MemStorage` reachable-state invariants. -/
theorem claim1_cart_to_order_conservation {s : Storage} {u : Nat} {cart : Cart}
    (addr : String)
    (hcart : getCartByUserId s u = some cart)
    (hgc : getCart s cart.id = some cart)
    (hne : getCartItems s cart.id ≠ [])
    (hprod : ∀ i ∈ getCartItems s cart.id, (getProduct s i.productId).isSome)
    (hodom : ∀ o ∈ s.orders, o.id < s.orderId)
    (hoidom : ∀ x ∈ s.orderItems, x.id < s.orderItemId)
    (hoifresh : ∀ x ∈ s.orderItems, x.orderId ≠ s.orderId) :
    ∃ t : Storage,
      createOrderFromCart s u addr = .ok (t, getOrderWithItems t s.orderId) ∧
      (joinedCartItems s cart.id).map JoinedCartItem.item
        = getCartItems s cart.id ∧
      (∃ o : Order, getOrder t s.orderId = some o ∧
        o.userId = u ∧ o.status = .pending ∧ o.shippingAddress = addr ∧
        o.total = ((joinedCartItems s cart.id).map
          (fun j => j.product.price * (j.item.quantity : Rat))).sum) ∧
      (getOrderItems t s.orderId).map orderItemSnapshot
        = (joinedCartItems s cart.id).map
            (fun j => (j.item.productId, j.item.quantity, j.product.price)) ∧
      getCart t cart.id = some cart ∧
      getCartItems t cart.id = [] := by
  have hitems := joined_items_of_all hprod
  have hne' : joinedCartItems s cart.id ≠ [] := by
    intro h
    rw [h] at hitems
    exact hne hitems.symm
  have hall : ∀ i ∈ getCartItems s cart.id,
      ∃ j ∈ joinedCartItems s cart.id, j.item.id = i.id := by
    intro i hi
    have hp := hprod i hi
    rcases Option.isSome_iff_exists.mp hp with ⟨p, hpp⟩
    exact ⟨⟨i, p⟩, mem_joined_intro hi hpp, rfl⟩
  obtain ⟨t, heq, hord, hsnap, hcarts, hclear, -, -⟩ :=
    createOrderFromCart_spec addr hcart hgc hne' hall hodom hoidom hoifresh
  refine ⟨t, heq, hitems, ⟨_, hord, rfl, rfl, rfl, rfl⟩, hsnap, ?_, hclear⟩
  unfold getCart mapGet
  rw [hcarts]
  exact hgc

/-- C1 counterexample state: the user's cart has one item, but its product
(id 99) does not exist (products can be deleted while referenced). -/
def danglingCartDemo : Storage :=
  { users := [{ id := 1, username := "u1", email := "u1@example.com",
                isAdmin := false }],
    carts := [{ id := 1, userId := 1, createdAt := 0 }],
    cartItems := [{ id := 1, cartId := 1, productId := 99, quantity := 1 }],
    userId := 2, cartId := 2, cartItemId := 2 }

/-- C1 counterexample: a cart with one CartItem whose product was deleted —
`createOrderFromCart` throws "Cart is empty" and creates no Order, so the
claim as stated (over every cart with at least one item) fails. -/
theorem claim1_counterexample :
    (getCartItems danglingCartDemo 1).length = 1 ∧
    getCartByUserId danglingCartDemo 1
      = some { id := 1, userId := 1, createdAt := 0 } ∧
    createOrderFromCart danglingCartDemo 1 "A" = .error "Cart is empty" := by
  decide

/-- Demo state for C1: the spec's own example — (product 1, qty 2, price 10)
and (product 2, qty 1, price 5). -/
def orderDemo : Storage :=
  { users := [{ id := 1, username := "u1", email := "u1@example.com",
                isAdmin := false }],
    products := [{ id := 1, name := "A", price := 10, sku := "A1",
                   inventory := some 5, category := none },
                 { id := 2, name := "B", price := 5, sku := "B2",
                   inventory := some 5, category := none }],
    carts := [{ id := 1, userId := 1, createdAt := 0 }],
    cartItems := [{ id := 1, cartId := 1, productId := 1, quantity := 2 },
                  { id := 2, cartId := 1, productId := 2, quantity := 1 }],
    userId := 2, productId := 3, cartId := 2, cartItemId := 3 }

/-- C1 witness: the amended claim at the spec's example — total 25, two
snapshots, cart emptied. -/
theorem claim1_cart_to_order_conservation_witness :
    ∃ t : Storage,
      createOrderFromCart orderDemo 1 "10 Main St"
        = .ok (t, getOrderWithItems t orderDemo.orderId) ∧
      (∃ o : Order, getOrder t orderDemo.orderId = some o ∧ o.total = 25) ∧
      (getOrderItems t orderDemo.orderId).map orderItemSnapshot
        = [(1, 2, 10), (2, 1, 5)] ∧
      getCartItems t 1 = [] := by
  obtain ⟨t, heq, -, ⟨o, ho, -, -, -, htot⟩, hsnap, -, hclear⟩ :=
    claim1_cart_to_order_conservation "10 Main St"
      (show getCartByUserId orderDemo 1
          = some { id := 1, userId := 1, createdAt := 0 } by decide)
      (by decide) (by decide) (by decide) (by decide) (by decide) (by decide)
  have hjoin : joinedCartItems orderDemo
      ({ id := 1, userId := 1, createdAt := 0 } : Cart).id
      = [⟨{ id := 1, cartId := 1, productId := 1, quantity := 2 },
          { id := 1, name := "A", price := 10, sku := "A1",
            inventory := some 5, category := none }⟩,
         ⟨{ id := 2, cartId := 1, productId := 2, quantity := 1 },
          { id := 2, name := "B", price := 5, sku := "B2",
            inventory := some 5, category := none }⟩] := by decide
  refine ⟨t, heq, ⟨o, ho, ?_⟩, ?_, hclear⟩
  · rw [htot, hjoin]
    norm_num
  · rw [hsnap, hjoin]
    decide

/-- C6: for every product in the (well-joined) cart, a successful
`createOrderFromCart` stores inventory `max 0 (previous − quantity)` — the
decrement clamped at zero — so a non-null inventory is never negative after
an order; in particular inventory 1 with quantity 1 yields 0, and a further
order against the same product leaves it at 0. -/
theorem claim6_inventory_clamp {s : Storage} {u : Nat} {cart : Cart}
    (addr : String)
    (hcart : getCartByUserId s u = some cart)
    (hgc : getCart s cart.id = some cart)
    (hne : getCartItems s cart.id ≠ [])
    (hprod : ∀ i ∈ getCartItems s cart.id, (getProduct s i.productId).isSome)
    (hnd : ((getCartItems s cart.id).map (fun i => i.productId)).Nodup)
    (hq : ∀ i ∈ getCartItems s cart.id, 0 ≤ i.quantity)
    (hodom : ∀ o ∈ s.orders, o.id < s.orderId)
    (hoidom : ∀ x ∈ s.orderItems, x.id < s.orderItemId)
    (hoifresh : ∀ x ∈ s.orderItems, x.orderId ≠ s.orderId) :
    ∃ t : Storage,
      createOrderFromCart s u addr = .ok (t, getOrderWithItems t s.orderId) ∧
      ∀ j ∈ joinedCartItems s cart.id, ∀ k : Int,
        j.product.inventory = some k →
        getProduct t j.product.id = some
          { j.product with
              inventory := some (max 0 (k - j.item.quantity)) } ∧
        (0 : Int) ≤ max 0 (k - j.item.quantity) := by
  have hitems := joined_items_of_all hprod
  have hne' : joinedCartItems s cart.id ≠ [] := by
    intro h
    rw [h] at hitems
    exact hne hitems.symm
  have hall : ∀ i ∈ getCartItems s cart.id,
      ∃ j ∈ joinedCartItems s cart.id, j.item.id = i.id := by
    intro i hi
    have hp := hprod i hi
    rcases Option.isSome_iff_exists.mp hp with ⟨p, hpp⟩
    exact ⟨⟨i, p⟩, mem_joined_intro hi hpp, rfl⟩
  have hndj : ((joinedCartItems s cart.id).map (fun x => x.product.id)).Nodup :=
    (joined_pids_sublist s cart.id).nodup hnd
  obtain ⟨t, heq, -, -, -, -, -, hinv⟩ :=
    createOrderFromCart_spec addr hcart hgc hne' hall hodom hoidom hoifresh
  refine ⟨t, heq, ?_⟩
  intro j hj k hk
  have hres := hinv j hj hndj
  have hqj : 0 ≤ j.item.quantity := hq j.item (mem_joined_elim hj).1
  have hpost : postInventory j.product j.item.quantity
      = some (max 0 (k - j.item.quantity)) := by
    by_cases h0 : k = 0
    · have h1 : postInventory j.product j.item.quantity = some 0 := by
        simp [postInventory, hk, h0]
      rw [h1]
      congr 1
      omega
    · simp [postInventory, hk, h0]
  rw [hpost] at hres
  exact ⟨hres, le_max_left 0 _⟩

/-- Demo state for C6: the boundary case — product 1 has inventory 1 and
the cart orders quantity 1. -/
def inventoryDemo : Storage :=
  { users := [{ id := 1, username := "u1", email := "u1@example.com",
                isAdmin := false }],
    products := [{ id := 1, name := "A", price := 10, sku := "A1",
                   inventory := some 1, category := none }],
    carts := [{ id := 1, userId := 1, createdAt := 0 }],
    cartItems := [{ id := 1, cartId := 1, productId := 1, quantity := 1 }],
    userId := 2, productId := 2, cartId := 2, cartItemId := 2 }

/-- C6 witness: ordering the last unit leaves inventory exactly 0. -/
theorem claim6_inventory_clamp_witness :
    ∃ t : Storage,
      createOrderFromCart inventoryDemo 1 "A" = .ok (t, getOrderWithItems t 1) ∧
      getProduct t 1 = some { id := 1, name := "A", price := 10, sku := "A1",
                              inventory := some 0, category := none } := by
  obtain ⟨t, heq, hinv⟩ :=
    claim6_inventory_clamp "A"
      (show getCartByUserId inventoryDemo 1
          = some { id := 1, userId := 1, createdAt := 0 } by decide)
      (by decide) (by decide) (by decide) (by decide) (by decide) (by decide)
      (by decide) (by decide)
  have hres := hinv
    ⟨{ id := 1, cartId := 1, productId := 1, quantity := 1 },
     { id := 1, name := "A", price := 10, sku := "A1",
       inventory := some 1, category := none }⟩
    (by decide) 1 (by decide)
  refine ⟨t, heq, ?_⟩
  rw [hres.1]
  decide

/-- Demo state for C7: a cart ready for a successful order, with an empty
notification log. -/
def notifyDemo : Storage :=
  { users := [{ id := 1, username := "u1", email := "u1@example.com",
                isAdmin := false }],
    products := [{ id := 1, name := "A", price := 10, sku := "A1",
                   inventory := some 5, category := none }],
    carts := [{ id := 1, userId := 1, createdAt := 0 }],
    cartItems := [{ id := 1, cartId := 1, productId := 1, quantity := 1 }],
    userId := 2, productId := 2, cartId := 2, cartItemId := 2 }

/-- C7: a successful `createOrderFromCart` creates the order yet records no
notification at all — the service-layer code never calls
`sendOrderConfirmation` (which, when called, does append to the log, as the
second conjunct shows), contradicting the spec and the repository's own
test, which asserts `sendOrderConfirmation` is called. -/
theorem claim7_no_order_confirmation :
    (createOrderFromCart notifyDemo 1 "A").map
      (fun r => (r.1.orders.length, r.1.notifications.length)) = .ok (1, 0) ∧
    (sendOrderConfirmation notifyDemo 1 1).map
      (fun t => t.notifications.length) = .ok 1 := by
  decide

end ECommerceApi
